import Mathlib

/-!
Verification development for the document-pipeline repository
(ingest / clean / classify / condense / reclassify / search).

The Python sources are shallowly embedded: text is `String` / `List Char`,
machine integers are `Int`/`Nat`, fallible calls return `Except Unit`.
Python's `str.lower`, `str.isalpha`, `\w`, `\s` are modelled at ASCII
granularity (all concrete inputs appearing below are ASCII).
Floating ratio comparisons such as `letters / n < 0.3` are modelled as the
exact rational comparisons (`letters * 10 < n * 3`).
-/

/-! ## Character and string utilities -/

/-- Whitespace as Python's `str.strip` / regex `\s` see it (ASCII part). -/
def isPySpace (c : Char) : Bool :=
  c = ' ' || c = '\t' || c = '\n' || c = '\x0d' || c = '\x0b' || c = '\x0c'

/-- Regex `\w` (ASCII part): letters, digits, underscore. -/
def isWordChar (c : Char) : Bool :=
  c.isAlphanum || c = '_'

/-- Python `str.lower` (ASCII part): map A-Z to a-z, leave the rest. -/
def pyLower (c : Char) : Char :=
  if 'A' ≤ c ∧ c ≤ 'Z' then Char.ofNat (c.toNat + 32) else c

/-- Python `str.strip()` on a character list. -/
def pyStripL (l : List Char) : List Char :=
  (((l.dropWhile isPySpace).reverse).dropWhile isPySpace).reverse

/-- Python `str.strip()`. -/
def pyStrip (s : String) : String :=
  String.mk (pyStripL s.data)

/-- Occurrence of `n` as a contiguous sublist of `l` (`n in l` for Python). -/
def containsL (n : List Char) : List Char → Bool
  | [] => n.isEmpty
  | c :: t => n.isPrefixOf (c :: t) || containsL n t

/-- Scanner for `\b` + literal: an occurrence of `n` whose preceding
character is a non-word character (or which sits at the start). -/
def containsWBAux (n : List Char) (prevWord : Bool) : List Char → Bool
  | [] => false
  | c :: t => (!prevWord && n.isPrefixOf (c :: t)) || containsWBAux n (isWordChar c) t

/-- `re.search(r'\b<literal>', l)` for a literal beginning with a word char. -/
def containsWB (n : List Char) (l : List Char) : Bool :=
  containsWBAux n false l

/-- Python `str.count(sub)`: non-overlapping occurrence count.  The first
argument skips the remainder of a previous match (structural recursion so
the kernel can evaluate it). -/
def countSubAux (n : List Char) : Nat → List Char → Nat
  | _, [] => 0
  | skip + 1, _ :: t => countSubAux n skip t
  | 0, c :: t =>
    if n.isPrefixOf (c :: t) then 1 + countSubAux n (n.length - 1) t
    else countSubAux n 0 t

/-- Python `str.count(sub)`. -/
def countSub (n : List Char) (l : List Char) : Nat :=
  countSubAux n 0 l

/-- Python `s.split('\n')`, accumulator form. -/
def splitNlAux (acc : List Char) : List Char → List (List Char)
  | [] => [acc.reverse]
  | '\n' :: t => acc.reverse :: splitNlAux [] t
  | c :: t => splitNlAux (c :: acc) t

/-- Python `s.split('\n')`. -/
def splitNl (l : List Char) : List (List Char) :=
  splitNlAux [] l

/-- `re.search(r'^(p1|p2|...)', l, re.MULTILINE)`: some line starts with one
of the literal alternatives. -/
def lineStartsWithAny (ps : List (List Char)) (l : List Char) : Bool :=
  (splitNl l).any (fun line => ps.any (fun p => p.isPrefixOf line))

/-- Scanner for `Q\.\s` / `A\.\s` with a word boundary before the letter
(the dialogue-marker alternatives of the deposition regex): at each
position, the match succeeds when the boundary holds, the letter is `Q` or
`A`, and a dot plus a whitespace follow. -/
def qaDotFoundAux (prevWord : Bool) : List Char → Bool
  | [] => false
  | c :: t =>
      (!prevWord && (c = 'Q' || c = 'A')
        && (match t with | '.' :: w :: _ => isPySpace w | _ => false))
      || qaDotFoundAux (isWordChar c) t

/-- `re.search(r'\b(Q\.\s|A\.\s)', l)`. -/
def qaDotFound (l : List Char) : Bool :=
  qaDotFoundAux false l

/-! ## classify.py -/

/-- The closed document-type enumeration of the spec (§4.2). -/
def docTypeEnum : List String :=
  ["empty", "scan_garbage", "email", "deposition", "law_enforcement", "legal",
   "phone_records", "file_listing", "evidence_list", "document", "minimal", "other"]

/-- `text = text or ""` then `.strip()` (classify.py lines 6-7). -/
def strippedOf (text : Option String) : List Char :=
  pyStripL (match text with | none => "" | some s => s).data

/-- `lower = stripped.lower()` (classify.py line 19). -/
def lowerOf (text : Option String) : List Char :=
  (strippedOf text).map pyLower

/-- `re.search(r'^(from:|sent:|to:|subject:|date:)', lower, re.MULTILINE)`. -/
def emailHeaderMatch (lower : List Char) : Bool :=
  lineStartsWithAny
    ["from:".data, "sent:".data, "to:".data, "subject:".data, "date:".data] lower

/-- `re.search(r'\b(deposition|testimony|grand jury|Q\.\s|A\.\s|WITNESS|sworn)', lower)`.
The search runs on the lowercased text while `Q\.`, `A\.` and `WITNESS` are
upper-case, exactly as in the source. -/
def depoMatch (lower : List Char) : Bool :=
  containsWB "deposition".data lower || containsWB "testimony".data lower
    || containsWB "grand jury".data lower || qaDotFound lower
    || containsWB "WITNESS".data lower || containsWB "sworn".data lower

/-- `re.search(r'\b(fbi|case number|case summary|investigation|indicted|arrest|convicted|bureau)', lower)`. -/
def lawMatch (lower : List Char) : Bool :=
  containsWB "fbi".data lower || containsWB "case number".data lower
    || containsWB "case summary".data lower || containsWB "investigation".data lower
    || containsWB "indicted".data lower || containsWB "arrest".data lower
    || containsWB "convicted".data lower || containsWB "bureau".data lower

/-- `re.search(r'\b(court|motion|order|plaintiff|defendant|docket|filed|judge|verdict|sentence)', lower)`. -/
def legalMatch (lower : List Char) : Bool :=
  containsWB "court".data lower || containsWB "motion".data lower
    || containsWB "order".data lower || containsWB "plaintiff".data lower
    || containsWB "defendant".data lower || containsWB "docket".data lower
    || containsWB "filed".data lower || containsWB "judge".data lower
    || containsWB "verdict".data lower || containsWB "sentence".data lower

/-- `phone.*record`: an occurrence of `phone` followed, with no newline in
between (`.` without DOTALL), by `record`. -/
def phoneDotStarRecord : List Char → Bool
  | [] => false
  | c :: t =>
    ("phone".data.isPrefixOf (c :: t)
        && containsL "record".data (((c :: t).drop 5).takeWhile (· ≠ '\n')))
      || phoneDotStarRecord t

/-- `re.search(r'(fax activity|call detail|call log|phone.*record)', lower)`. -/
def phoneMatch (lower : List Char) : Bool :=
  containsL "fax activity".data lower || containsL "call detail".data lower
    || containsL "call log".data lower || phoneDotStarRecord lower

/-- `lower.count('.tif') > 3 or lower.count('.jpg') > 3 or lower.count('.pdf') > 5`. -/
def fileListingCond (lower : List Char) : Bool :=
  decide (countSub ".tif".data lower > 3) || decide (countSub ".jpg".data lower > 3)
    || decide (countSub ".pdf".data lower > 5)

/-- `re.search(r'(evidence|property|contents|item quantity)', lower)`. -/
def evidenceMatch (lower : List Char) : Bool :=
  containsL "evidence".data lower || containsL "property".data lower
    || containsL "contents".data lower || containsL "item quantity".data lower

/-- The fixed 13-name watchlist of `classify`. -/
def classifyNames : List String :=
  ["epstein", "maxwell", "ghislaine", "prince andrew", "giuffre", "roberts",
   "dershowitz", "clinton", "trump", "black", "wexner", "brunel", "dubin"]

/-- `name_hits = sum(1 for n in names if n in lower)`. -/
def classifyNameHits (lower : List Char) : Nat :=
  (classifyNames.filter (fun n => containsL n.data lower)).length

/-- Email step (classify.py lines 26-28). -/
def stepEmail (lower : List Char) (st : String × Int) : String × Int :=
  if emailHeaderMatch lower then ("email", 60) else st

/-- Deposition step (classify.py lines 31-33). -/
def stepDepo (lower : List Char) (st : String × Int) : String × Int :=
  if depoMatch lower then
    ((if st.1 = "other" then "deposition" else st.1), max st.2 70)
  else st

/-- Law-enforcement step (classify.py lines 36-38). -/
def stepLaw (lower : List Char) (st : String × Int) : String × Int :=
  if lawMatch lower then ("law_enforcement", max st.2 80) else st

/-- Legal-filing step (classify.py lines 41-43). -/
def stepLegal (lower : List Char) (st : String × Int) : String × Int :=
  if legalMatch lower then
    ((if st.1 = "other" then "legal" else st.1), max st.2 50)
  else st

/-- Phone/fax-log step (classify.py lines 46-48): plain score assignment. -/
def stepPhone (lower : List Char) (st : String × Int) : String × Int :=
  if phoneMatch lower then ("phone_records", 20) else st

/-- File-listing step (classify.py lines 51-53): plain score assignment. -/
def stepFile (lower : List Char) (st : String × Int) : String × Int :=
  if fileListingCond lower then ("file_listing", 10) else st

/-- Evidence/property step (classify.py lines 56-58): plain score assignment. -/
def stepEvidence (lower : List Char) (st : String × Int) : String × Int :=
  if evidenceMatch lower then ("evidence_list", 30) else st

/-- Name-boost step (classify.py lines 61-64). -/
def stepNames (lower : List Char) (st : String × Int) : String × Int :=
  (st.1, st.2 + (classifyNameHits lower : Int) * 10)

/-- First length bonus (classify.py lines 67-68). -/
def stepLen1 (char_count : Nat) (st : String × Int) : String × Int :=
  if char_count > 1000 then (st.1, st.2 + 10) else st

/-- Second length bonus (classify.py lines 69-70). -/
def stepLen2 (char_count : Nat) (st : String × Int) : String × Int :=
  if char_count > 5000 then (st.1, st.2 + 10) else st

/-- `score = min(score, 100)` (classify.py line 72). -/
def stepClamp (st : String × Int) : String × Int :=
  (st.1, min st.2 100)

/-- Final untyped-document step (classify.py lines 74-80). -/
def stepFinal (char_count : Nat) (st : String × Int) : String × Int :=
  if st.1 = "other" ∧ st.2 < 20 then
    if char_count < 100 then ("minimal", st.2) else ("document", st.2)
  else st

/-- `classify(text, page_count)` (classify.py lines 5-80). -/
def classify (text : Option String) (page_count : Nat) : String × Int :=
  let stripped := strippedOf text
  let char_count := stripped.length
  if char_count < 20 then ("empty", 0)
  else
    let letters := (stripped.filter Char.isAlpha).length
    if letters * 10 < char_count * 3 then ("scan_garbage", 0)
    else
      let lower := stripped.map pyLower
      stepFinal char_count (stepClamp (stepLen2 char_count (stepLen1 char_count
        (stepNames lower (stepEvidence lower (stepFile lower (stepPhone lower
          (stepLegal lower (stepLaw lower (stepDepo lower
            (stepEmail lower ("other", 0))))))))))))

/-! ## condense.py: reclassify -/

/-- The expanded 18-term watchlist of `reclassify` (condense.py lines 73-75). -/
def reclassifyNames : List String :=
  ["epstein", "maxwell", "ghislaine", "prince andrew", "giuffre", "roberts",
   "dershowitz", "clinton", "trump", "black", "wexner", "brunel", "dubin",
   "victim", "minor", "underage", "abuse", "trafficking"]

/-- `name_hits = sum(1 for n in key_names if n in lower)` (condense.py line 76). -/
def reclassifyNameHits (lower : List Char) : Nat :=
  (reclassifyNames.filter (fun n => containsL n.data lower)).length

/-- `len(re.findall(r'\b[QA]\.\s', condensed))` (condense.py line 82):
non-overlapping count of a word-boundary, `Q` or `A`, a dot, a whitespace. -/
def countQAAux (prevWord : Bool) : List Char → Nat
  | c :: '.' :: w :: t =>
      if !prevWord && (c = 'Q' || c = 'A') && isPySpace w then
        1 + countQAAux false t
      else countQAAux (isWordChar c) ('.' :: w :: t)
  | c :: t => countQAAux (isWordChar c) t
  | [] => 0

/-- `len(re.findall(r'\b[QA]\.\s', condensed))`. -/
def countQA (l : List Char) : Nat :=
  countQAAux false l

/-- Characters matched by the class `[.!?]`. -/
def isSentPunct (c : Char) : Bool :=
  c = '.' || c = '!' || c = '?'

/-- Characters matched by `[A-Z]`. -/
def isUpperAZ (c : Char) : Bool :=
  'A' ≤ c && c ≤ 'Z'

/-- `len(re.findall(r'[.!?]\s+[A-Z]', condensed))` (condense.py line 88):
a match is punctuation, a maximal nonempty whitespace run, then an
upper-case letter; counting is non-overlapping, resuming after the match. -/
def countSentAux : Nat → List Char → Nat
  | _, [] => 0
  | skip + 1, _ :: t => countSentAux skip t
  | 0, c :: t =>
    if isSentPunct c then
      let n := (t.takeWhile isPySpace).length
      match (t.drop n).head? with
      | some u =>
        if 1 ≤ n && isUpperAZ u then 1 + countSentAux (n + 1) t
        else countSentAux 0 t
      | none => countSentAux 0 t
    else countSentAux 0 t

/-- `len(re.findall(r'[.!?]\s+[A-Z]', condensed))`. -/
def countSent (l : List Char) : Nat :=
  countSentAux 0 l

/-- `re.search(r'(?i)(investigation|arrest|surveillance|interview|witness|statement|allegation)', lower)`
on the already-lowercased text. -/
def invMatch (lower : List Char) : Bool :=
  containsL "investigation".data lower || containsL "arrest".data lower
    || containsL "surveillance".data lower || containsL "interview".data lower
    || containsL "witness".data lower || containsL "statement".data lower
    || containsL "allegation".data lower

/-- `re.search(r'(?i)(plea agreement|indictment|non-prosecution|immunity|cooperat|sentenc)', lower)`. -/
def legalSubstanceMatch (lower : List Char) : Bool :=
  containsL "plea agreement".data lower || containsL "indictment".data lower
    || containsL "non-prosecution".data lower || containsL "immunity".data lower
    || containsL "cooperat".data lower || containsL "sentenc".data lower

/-- `re.search(r'^(From:|Subject:)', condensed, re.MULTILINE)` — case sensitive,
on the condensed text as-is. -/
def emailLineMatch (c : List Char) : Bool :=
  lineStartsWithAny ["From:".data, "Subject:".data] c

/-- `short_lines = sum(1 for l in lines if len(l.strip()) < 20)` (condense.py line 112). -/
def shortLineCount (lines : List (List Char)) : Nat :=
  (lines.filter (fun l => decide ((pyStripL l).length < 20))).length

/-- Name-hit score step (condense.py lines 76-79). -/
def rstepNames (lower : List Char) (score : Int) : Int :=
  if reclassifyNameHits lower ≠ 0 then score + (reclassifyNameHits lower : Int) * 8
  else score

/-- Dialogue-marker step (condense.py lines 82-85). -/
def rstepQA (c : List Char) (st : String × Int) : String × Int :=
  if countQA c > 5 then ("deposition", st.2 + 30) else st

/-- Narrative-density step (condense.py lines 88-92). -/
def rstepSent (c : List Char) (st : String × Int) : String × Int :=
  if countSent c > 5 then (st.1, st.2 + 20)
  else if countSent c > 2 then (st.1, st.2 + 10)
  else st

/-- Investigative-language step (condense.py lines 95-98). -/
def rstepInv (lower : List Char) (st : String × Int) : String × Int :=
  if invMatch lower then
    ((if st.1 ≠ "deposition" ∧ st.1 ≠ "email" then "law_enforcement" else st.1),
     st.2 + 20)
  else st

/-- Legal-substance step (condense.py lines 101-102). -/
def rstepLegal (lower : List Char) (st : String × Int) : String × Int :=
  if legalSubstanceMatch lower then (st.1, st.2 + 25) else st

/-- Email-content step (condense.py lines 105-108); `sentences` is the same
count as in the narrative step. -/
def rstepEmail (c : List Char) (st : String × Int) : String × Int :=
  if emailLineMatch c ∧ (countSent c > 2 ∨ c.length > 300) then ("email", st.2 + 15)
  else st

/-- Tabular-demotion step (condense.py lines 111-114). -/
def rstepTabular (c : List Char) (st : String × Int) : String × Int :=
  if (splitNl c).length > 10 ∧ shortLineCount (splitNl c) * 10 > (splitNl c).length * 7 then
    (st.1, max (st.2 - 20) 0)
  else st

/-- First length bonus (condense.py lines 117-118). -/
def rstepLenA (c : List Char) (st : String × Int) : String × Int :=
  if c.length > 2000 then (st.1, st.2 + 10) else st

/-- Second length bonus (condense.py lines 119-120). -/
def rstepLenB (c : List Char) (st : String × Int) : String × Int :=
  if c.length > 5000 then (st.1, st.2 + 10) else st

/-- Length-bonus steps (condense.py lines 117-120). -/
def rstepLen (c : List Char) (st : String × Int) : String × Int :=
  rstepLenB c (rstepLenA c st)

/-- `reclassify(text, condensed, doc_type, page_count)` (condense.py lines 64-123). -/
def reclassify (text : Option String) (condensed : Option String)
    (doc_type : String) (page_count : Nat) : String × Int :=
  match condensed with
  | none => ("empty", 0)
  | some cs =>
    let c := cs.data
    if (pyStripL c).length < 30 then ("empty", 0)
    else
      let lower := c.map pyLower
      let st := rstepLen c (rstepTabular c (rstepEmail c (rstepLegal lower
        (rstepInv lower (rstepSent c (rstepQA c (doc_type, rstepNames lower 0)))))))
      (st.1, min st.2 100)

/-! ## A small backtracking regex engine for the JUNK_PATTERNS of condense.py

The engine follows Python `re` operational semantics: leftmost match,
backtracking order (alternation left first, greedy stars longest first, lazy
stars shortest first).  All `re.sub` calls in `condense_text` use
`re.MULTILINE | re.DOTALL`, so `.` matches every character and `$` matches
before any newline or at the end.  Matching is defined on the text suffix
(no pattern uses a lookbehind), with a fuel bound on backtracking depth. -/

inductive Re where
  | eps
  | lit (c : Char)
  | litCI (c : Char)
  | cls (p : Char → Bool)
  | anyc
  | seq (a b : Re)
  | alt (a b : Re)
  | starG (a : Re)
  | starL (a : Re)
  | look (a : Re)
  | eol
  | eos

/-- Number of AST nodes, used to size the fuel. -/
def Re.size : Re → Nat
  | .eps | .lit _ | .litCI _ | .cls _ | .anyc | .eol | .eos => 1
  | .seq a b | .alt a b => a.size + b.size + 1
  | .starG a | .starL a | .look a => a.size + 1

/-- CPS matcher: try to match `re` at the head of `s`, calling `k` on the
remaining suffix; the first success in backtracking order wins. -/
def reMatch (fuel : Nat) (re : Re) (s : List Char)
    (k : List Char → Option (List Char)) : Option (List Char) :=
  match fuel with
  | 0 => none
  | fuel + 1 =>
    match re with
    | .eps => k s
    | .lit c =>
      match s with
      | d :: t => if d = c then k t else none
      | [] => none
    | .litCI c =>
      match s with
      | d :: t => if pyLower d = pyLower c then k t else none
      | [] => none
    | .cls p =>
      match s with
      | d :: t => if p d then k t else none
      | [] => none
    | .anyc =>
      match s with
      | _ :: t => k t
      | [] => none
    | .seq a b => reMatch fuel a s (fun s2 => reMatch fuel b s2 k)
    | .alt a b =>
      match reMatch fuel a s k with
      | some r => some r
      | none => reMatch fuel b s k
    | .starG a =>
      match reMatch fuel a s
          (fun s2 => if s2.length < s.length then reMatch fuel (.starG a) s2 k else none) with
      | some r => some r
      | none => k s
    | .starL a =>
      match k s with
      | some r => some r
      | none =>
        reMatch fuel a s
          (fun s2 => if s2.length < s.length then reMatch fuel (.starL a) s2 k else none)
    | .look a =>
      match reMatch fuel a s (fun s2 => some s2) with
      | some _ => k s
      | none => none
    | .eol =>
      match s with
      | [] => k s
      | '\n' :: _ => k s
      | _ => none
    | .eos =>
      match s with
      | [] => k s
      | _ => none

/-- Fuel that is comfortably larger than any backtracking path for the
patterns below. -/
def reFuel (re : Re) (s : List Char) : Nat :=
  (Re.size re + 4) * (s.length + 4)

/-- The suffix left after the match of `re` starting exactly here, if any. -/
def reMatchEnd (re : Re) (s : List Char) : Option (List Char) :=
  reMatch (reFuel re s) re s (fun t => some t)

/-- `re.sub(re, '', l)`: scan left to right, removing each leftmost
non-overlapping match (a zero-width match removes nothing and the scan
advances one character, as in Python). -/
def subReAux (re : Re) : Nat → List Char → List Char
  | _, [] => []
  | skip + 1, _ :: t => subReAux re skip t
  | 0, c :: t =>
    match reMatchEnd re (c :: t) with
    | some r =>
      let consumed := (c :: t).length - r.length
      if 0 < consumed then subReAux re (consumed - 1) t else c :: subReAux re 0 t
    | none => c :: subReAux re 0 t

/-- `re.sub(re, '', l)`. -/
def subRe (re : Re) (l : List Char) : List Char :=
  subReAux re 0 l

/-- Does `re` match anywhere in `l`? (`re.search`). -/
def reSearch (re : Re) : List Char → Bool
  | [] => (reMatchEnd re []).isSome
  | c :: t => (reMatchEnd re (c :: t)).isSome || reSearch re t

/-! ### Pattern constructors -/

/-- Case-insensitive literal word. -/
def ciStr (s : String) : Re :=
  s.data.foldr (fun c r => Re.seq (Re.litCI c) r) Re.eps

/-- Case-sensitive literal word. -/
def csStr (s : String) : Re :=
  s.data.foldr (fun c r => Re.seq (Re.lit c) r) Re.eps

/-- `\s`. -/
def reWS : Re := Re.cls isPySpace

/-- `X+` (greedy). -/
def rePlus (a : Re) : Re := Re.seq a (Re.starG a)

/-- `X?` (greedy). -/
def reOpt (a : Re) : Re := Re.alt a Re.eps

/-- `.*?(?=\n\n|\Z)`. -/
def lazyToBlank : Re :=
  Re.seq (Re.starL Re.anyc) (Re.look (Re.alt (csStr "\n\n") Re.eos))

/-! ### The 18 JUNK_PATTERNS (condense.py lines 6-31), in source order. -/

/-- `(?i)chain of custody.*?(?=\n\n|\Z)` -/
def junkPat1 : Re := Re.seq (ciStr "chain of custody") lazyToBlank

/-- `(?i)evidence envelope.*?(?=\n\n|\Z)` -/
def junkPat2 : Re := Re.seq (ciStr "evidence envelope") lazyToBlank

/-- `(?i)enclosure:.*?(?=\n\n|\Z)` -/
def junkPat3 : Re := Re.seq (ciStr "enclosure:") lazyToBlank

/-- `(?i)(?:original|duplicate|enhanced original)\s*$` -/
def junkPat4 : Re :=
  Re.seq (Re.alt (ciStr "original") (Re.alt (ciStr "duplicate") (ciStr "enhanced original")))
    (Re.seq (Re.starG reWS) Re.eol)

/-- `(?i)magnetic tape.*?computer disk.*?printed material` -/
def junkPat5 : Re :=
  Re.seq (ciStr "magnetic tape") (Re.seq (Re.starL Re.anyc)
    (Re.seq (ciStr "computer disk") (Re.seq (Re.starL Re.anyc) (ciStr "printed material"))))

/-- `(?i)court authorized intercept.*?(?=\n\n|\Z)` -/
def junkPat6 : Re := Re.seq (ciStr "court authorized intercept") lazyToBlank

/-- `(?i)please consider the environment before printing.*` -/
def junkPat7 : Re :=
  Re.seq (ciStr "please consider the environment before printing") (Re.starG Re.anyc)

/-- `(?i)this communication may contain confidential.*?(?=\n\n|\Z)` -/
def junkPat8 : Re := Re.seq (ciStr "this communication may contain confidential") lazyToBlank

/-- `(?i)this e-?mail (?:and any|is|may).*?(?=\n\n|\Z)` -/
def junkPat9 : Re :=
  Re.seq (ciStr "this e") (Re.seq (reOpt (Re.lit '-')) (Re.seq (ciStr "mail ")
    (Re.seq (Re.alt (ciStr "and any") (Re.alt (ciStr "is") (ciStr "may"))) lazyToBlank)))

/-- `(?i)if you (?:are not|have received) the intended recipient.*?(?=\n\n|\Z)` -/
def junkPat10 : Re :=
  Re.seq (ciStr "if you ") (Re.seq (Re.alt (ciStr "are not") (ciStr "have received"))
    (Re.seq (ciStr " the intended recipient") lazyToBlank))

/-- `(?i)disclaimer:.*?(?=\n\n|\Z)` -/
def junkPat11 : Re := Re.seq (ciStr "disclaimer:") lazyToBlank

/-- `(?i)privileged.*?attorney.*?client.*?(?=\n\n|\Z)` -/
def junkPat12 : Re :=
  Re.seq (ciStr "privileged") (Re.seq (Re.starL Re.anyc) (Re.seq (ciStr "attorney")
    (Re.seq (Re.starL Re.anyc) (Re.seq (ciStr "client") lazyToBlank))))

/-- `(?i)item\s+was\s+not\s+scanned\s+description` -/
def junkPat13 : Re :=
  Re.seq (ciStr "item") (Re.seq (rePlus reWS) (Re.seq (ciStr "was")
    (Re.seq (rePlus reWS) (Re.seq (ciStr "not") (Re.seq (rePlus reWS)
      (Re.seq (ciStr "scanned") (Re.seq (rePlus reWS) (ciStr "description"))))))))

/-- `(?i)grand jury material.*?criminal procedure` -/
def junkPat14 : Re :=
  Re.seq (ciStr "grand jury material") (Re.seq (Re.starL Re.anyc) (ciStr "criminal procedure"))

/-- `(?i)this document contains neither recommendations nor conclusions of the fbi.*?(?=\n\n|\Z)` -/
def junkPat15 : Re :=
  Re.seq (ciStr "this document contains neither recommendations nor conclusions of the fbi")
    lazyToBlank

/-- `(?i)it is the property of the fbi.*?(?=\n\n|\Z)` -/
def junkPat16 : Re := Re.seq (ciStr "it is the property of the fbi") lazyToBlank

/-- `(?:GM_[A-Z]+_\d+\s*)+` (case sensitive) -/
def junkPat17 : Re :=
  rePlus (Re.seq (csStr "GM_") (Re.seq (rePlus (Re.cls isUpperAZ))
    (Re.seq (Re.lit '_') (Re.seq (rePlus (Re.cls Char.isDigit)) (Re.starG reWS)))))

/-- Body of the image-file-listing pattern: `[A-Z]+\d+[._]\w+\s*`. -/
def imgListBody : Re :=
  Re.seq (rePlus (Re.cls isUpperAZ)) (Re.seq (rePlus (Re.cls Char.isDigit))
    (Re.seq (Re.cls (fun c => c = '.' || c = '_'))
      (Re.seq (rePlus (Re.cls isWordChar)) (Re.starG reWS))))

/-- `(?:[A-Z]+\d+[._]\w+\s*){3,}` (case sensitive) -/
def junkPat18 : Re := Re.seq imgListBody (Re.seq imgListBody (rePlus imgListBody))

/-- `JUNK_PATTERNS` (condense.py lines 6-31), in list order. -/
def JUNK_PATTERNS : List Re :=
  [junkPat1, junkPat2, junkPat3, junkPat4, junkPat5, junkPat6, junkPat7, junkPat8,
   junkPat9, junkPat10, junkPat11, junkPat12, junkPat13, junkPat14, junkPat15,
   junkPat16, junkPat17, junkPat18]

/-! ## condense.py: is_junk_page and condense_text -/

/-- `is_junk_page(text)` (condense.py lines 33-44). -/
def is_junk_page (page : List Char) : Bool :=
  let s := pyStripL page
  if s.length < 15 then true
  else
    let letters := (s.filter Char.isAlpha).length
    if letters * 4 < s.length then true
    else
      let digits := (s.filter Char.isDigit).length
      if s.length > 50 ∧ digits * 5 > s.length * 2 then true else false

/-- Length of the leading newline run. -/
def countLeadNl : List Char → Nat
  | [] => 0
  | c :: t => if c = '\n' then 1 + countLeadNl t else 0

/-- `re.sub(r'\n{3,}', '\n\n', l)`: each maximal newline run of length at
least three becomes exactly two newlines. -/
def collapseNlAux : Nat → List Char → List Char
  | _, [] => []
  | skip + 1, _ :: t => collapseNlAux skip t
  | 0, '\n' :: t =>
    let n := countLeadNl t
    if 2 ≤ n then '\n' :: '\n' :: collapseNlAux n t else '\n' :: collapseNlAux 0 t
  | 0, c :: t => c :: collapseNlAux 0 t

/-- `re.sub(r'\n{3,}', '\n\n', l)`. -/
def collapseNl (l : List Char) : List Char :=
  collapseNlAux 0 l

/-- Python `s.split("\n\n")`, accumulator form. -/
def splitNlNlAux (acc : List Char) : List Char → List (List Char)
  | '\n' :: '\n' :: t => acc.reverse :: splitNlNlAux [] t
  | c :: t => splitNlNlAux (c :: acc) t
  | [] => [acc.reverse]

/-- `full_text.split("\n\n")` (condense.py line 50). -/
def splitNlNl (l : List Char) : List (List Char) :=
  splitNlNlAux [] l

/-- `"\n\n".join(pages)` (condense.py line 62). -/
def joinNlNl : List (List Char) → List Char
  | [] => []
  | [x] => x
  | x :: y :: t => x ++ '\n' :: '\n' :: joinNlNl (y :: t)

/-- One page of the condenser: all 18 junk patterns stripped in order, the
newline collapse, then `strip()` (condense.py lines 55-59). -/
def cleanPage (page : List Char) : List Char :=
  pyStripL (collapseNl (JUNK_PATTERNS.foldl (fun acc re => subRe re acc) page))

/-- `condense_text(full_text)` (condense.py lines 46-62). -/
def condense_text (full_text : String) : String :=
  if full_text = "" then ""
  else
    let pages := splitNlNl full_text.data
    let kept := pages.filterMap (fun page =>
      if is_junk_page page then none
      else
        let cleaned := cleanPage page
        if cleaned.length > 15 then some cleaned else none)
    String.mk (joinNlNl kept)

/-! ## clean.py: clean_text -/

/-- `[a-z]`. -/
def isLowerAZ (c : Char) : Bool :=
  'a' ≤ c && c ≤ 'z'

/-- Python `str.upper` (ASCII part). -/
def pyUpper (c : Char) : Char :=
  if 'a' ≤ c ∧ c ≤ 'z' then Char.ofNat (c.toNat - 32) else c

/-- `re.match(r'^\d{1,3}$', s)` on an already stripped line: one to three
digits and nothing else. -/
def isBareLineNumber (s : List Char) : Bool :=
  decide (1 ≤ s.length) && decide (s.length ≤ 3) && s.all Char.isDigit

/-- `re.match(r'^EFTA\d+$', s)` on an already stripped line. -/
def isBatesStamp (s : List Char) : Bool :=
  "EFTA".data.isPrefixOf s && decide (1 ≤ (s.drop 4).length) && (s.drop 4).all Char.isDigit

/-- `re.match(r'^Page \d+ of \d+', s)`: a prefix match. -/
def isPageHeader (s : List Char) : Bool :=
  "Page ".data.isPrefixOf s &&
    (let r := s.drop 5
     let d := (r.takeWhile Char.isDigit).length
     decide (1 ≤ d) && " of ".data.isPrefixOf (r.drop d)
       && (match (r.drop (d + 4)).head? with
           | some c => Char.isDigit c
           | none => false))

/-- `'WAS NOT SCANNED' in s.upper()`. -/
def isNotScannedLine (s : List Char) : Bool :=
  containsL "WAS NOT SCANNED".data (s.map pyUpper)

/-- The per-line filter of `clean_text` (clean.py lines 11-27), applied to the
stripped line. -/
def cleanKeepLine (s : List Char) : Bool :=
  !s.isEmpty && !isBareLineNumber s && !isBatesStamp s && !isPageHeader s
    && !isNotScannedLine s

/-- Generic join with a separator (Python `sep.join`). -/
def joinSepL (sep : List Char) : List (List Char) → List Char
  | [] => []
  | [x] => x
  | x :: y :: t => x ++ sep ++ joinSepL sep (y :: t)

/-- `re.sub(r'(?<=[a-z,])\n(?=[a-z])', ' ', l)`: a newline between a
lowercase letter or comma and a lowercase letter becomes a space.  The
lookaround context is the original text, as for Python `re.sub`. -/
def rejoinBrokenAux (prev : Char) : List Char → List Char
  | [] => []
  | c :: t =>
    (if (c == '\n') && (isLowerAZ prev || (prev == ',')) &&
        (match t.head? with | some n => isLowerAZ n | none => false) then ' ' else c)
      :: rejoinBrokenAux c t

/-- `re.sub(r'(?<=[a-z,])\n(?=[a-z])', ' ', l)`. -/
def rejoinBroken : List Char → List Char
  | [] => []
  | c :: t => c :: rejoinBrokenAux c t

/-- `clean_text(text)` (clean.py lines 5-36). -/
def clean_text (text : String) : String :=
  if text = "" ∨ (pyStripL text.data).length < 10 then text
  else
    let cleaned := ((splitNl text.data).map pyStripL).filter cleanKeepLine
    let t1 := joinSepL ['\n'] cleaned
    let t2 := collapseNl t1
    let t3 := rejoinBroken t2
    String.mk (pyStripL t3)

/-! ## ingest.py / clean.py main: the document store -/

/-- Python `sep.join` on strings. -/
def joinSep (sep : String) : List String → String
  | [] => ""
  | [x] => x
  | x :: y :: t => x ++ sep ++ joinSep sep (y :: t)

/-- A stored document: unique filename, pages as (page_num, text) rows,
and the derived `full_text` column. -/
structure DocRec where
  filename : String
  pages : List (Nat × String)
  full_text : String
deriving DecidableEq

/-- Insertion into a page list sorted by page number. -/
def insertByNum (x : Nat × String) : List (Nat × String) → List (Nat × String)
  | [] => [x]
  | y :: ys => if x.1 ≤ y.1 then x :: y :: ys else y :: insertByNum x ys

/-- `SELECT ... ORDER BY page_num`. -/
def sortPagesByNum : List (Nat × String) → List (Nat × String)
  | [] => []
  | x :: xs => insertByNum x (sortPagesByNum xs)

/-- A document's page texts in page-number order. -/
def pagesInOrder (d : DocRec) : List String :=
  (sortPagesByNum d.pages).map Prod.snd

/-- Document creation at ingestion (ingest.py lines 66-83): page rows are
numbered `i + 1` in extraction order and `full_text` is the `"\n"`-join of
the extracted page texts. -/
def mkDocRec (filename : String) (pages_text : List String) : DocRec :=
  { filename := filename
    pages := pages_text.enum.map (fun p => (p.1 + 1, p.2))
    full_text := joinSep "\n" pages_text }

/-- One iteration of the ingest loop (ingest.py lines 53-83): skip when the
filename already exists, skip when extraction failed, otherwise insert. -/
def ingestStep (db : List DocRec) (item : String × Except Unit (List String)) :
    List DocRec :=
  if db.any (fun d => d.filename == item.1) then db
  else
    match item.2 with
    | .error _ => db
    | .ok pages_text => db ++ [mkDocRec item.1 pages_text]

/-- The ingest batch loop over (filename, extraction result) pairs. -/
def ingestBatch (db : List DocRec) (items : List (String × Except Unit (List String))) :
    List DocRec :=
  items.foldl ingestStep db

/-- The Cleaner pass on one document (clean.py lines 44-57): every page text
is replaced by `clean_text` of it, then `full_text` is recomputed as the
`"\n\n"`-join of the page texts in page-number order. -/
def cleanDoc (d : DocRec) : DocRec :=
  let ps := d.pages.map (fun p => (p.1, clean_text p.2))
  { d with
    pages := ps
    full_text := joinSep "\n\n" ((sortPagesByNum ps).map Prod.snd) }

/-- The Cleaner pass over the whole store. -/
def cleanMain (db : List DocRec) : List DocRec :=
  db.map cleanDoc

/-! ## app.py: _build_fts_query and search -/

/-- Python `str.split()` with no separator: split on whitespace runs,
producing no empty tokens. -/
def pySplitWsAux (cur : List Char) : List Char → List (List Char)
  | [] => if cur.isEmpty then [] else [cur.reverse]
  | c :: t =>
    if isPySpace c then
      if cur.isEmpty then pySplitWsAux [] t else cur.reverse :: pySplitWsAux [] t
    else pySplitWsAux (c :: cur) t

/-- Python `q.split()`. -/
def pySplitWs (q : String) : List String :=
  (pySplitWsAux [] q.data).map String.mk

/-- `re.sub(r'[^\w]', '', t)`: keep only word characters. -/
def stripNonWord (t : String) : String :=
  String.mk (t.data.filter isWordChar)

/-- `_build_fts_query(q)` (app.py lines 83-90). -/
def buildFtsQuery (q : String) : String :=
  let parts := (pySplitWs q).filterMap (fun t =>
    let clean := stripNonWord t
    if clean ≠ "" then some (clean ++ "*") else none)
  joinSep " AND " parts

/-- A row of the `pages` table, carrying the owning document's filename
(the fallback query joins `documents` for it). -/
structure PageRow where
  doc_id : Nat
  filename : String
  page_num : Nat
  text : String
deriving DecidableEq

/-- A search result tuple (doc_id, filename, page_num, snippet). -/
structure SearchHit where
  doc_id : Nat
  filename : String
  page_num : Nat
  snippet : String
deriving DecidableEq

/-- SQL `LIKE` with `%` (any run) and `_` (any one char), fueled so the
kernel can evaluate it; `patLen + textLen + 1` steps always suffice. -/
def likeMatchF : Nat → List Char → List Char → Bool
  | 0, _, _ => false
  | fuel + 1, ps, ts =>
    match ps, ts with
    | [], [] => true
    | [], _ :: _ => false
    | '%' :: ps2, ts =>
      likeMatchF fuel ps2 ts
        || (match ts with
            | [] => false
            | _ :: ts2 => likeMatchF fuel ('%' :: ps2) ts2)
    | '_' :: _, [] => false
    | '_' :: ps2, _ :: ts2 => likeMatchF fuel ps2 ts2
    | _ :: _, [] => false
    | p :: ps2, t :: ts2 => (p == t) && likeMatchF fuel ps2 ts2

/-- `pattern LIKE text` (both sides are lowercased by the SQL before the
comparison, see the fallback query). -/
def sqlLike (pattern text : List Char) : Bool :=
  likeMatchF (pattern.length + text.length + 1) pattern text

/-- SQLite `instr(hay, needle)`: 1-based position of the first occurrence,
0 when absent. -/
def sqlInstrAux (n : List Char) (i : Nat) : List Char → Nat
  | [] => if n.isEmpty then i else 0
  | c :: t => if n.isPrefixOf (c :: t) then i else sqlInstrAux n (i + 1) t

/-- SQLite `instr`. -/
def sqlInstr (hay n : List Char) : Nat :=
  sqlInstrAux n 1 hay

/-- SQLite `substr(s, start, len)` for a 1-based start. -/
def sqlSubstr (s : List Char) (start len : Nat) : List Char :=
  (s.drop (start - 1)).take len

/-- Ordering `ORDER BY p.doc_id, p.page_num` of the fallback query. -/
def rowLe (a b : PageRow) : Bool :=
  a.doc_id < b.doc_id || (a.doc_id == b.doc_id && a.page_num ≤ b.page_num)

/-- Insertion sort step for page rows. -/
def insertRow (x : PageRow) : List PageRow → List PageRow
  | [] => [x]
  | y :: ys => if rowLe x y then x :: y :: ys else y :: insertRow x ys

/-- Sort page rows by (doc_id, page_num). -/
def sortRows : List PageRow → List PageRow
  | [] => []
  | x :: xs => insertRow x (sortRows xs)

/-- The snippet of the fallback query (app.py line 122):
`substr(p.text, max(1, instr(lower(p.text), lower(firstTok)) - 80), 200)`. -/
def fallbackSnippet (text : List Char) (firstTok : List Char) : List Char :=
  sqlSubstr text (Nat.max 1 (sqlInstr (text.map pyLower) (firstTok.map pyLower) - 80)) 200

/-- The fallback `LIKE` query of `search` (app.py lines 119-128): filter the
page rows by the lowercased pattern, order by (doc_id, page_num), cap at
100 rows, and attach the fixed-window snippet. -/
def likeQuery (pages : List PageRow) (firstTok : String) (pattern : String) :
    List SearchHit :=
  (((sortRows pages).filter
      (fun p => sqlLike (pattern.data.map pyLower) (p.text.data.map pyLower))).take 100).map
    (fun p => ⟨p.doc_id, p.filename, p.page_num,
               String.mk (fallbackSnippet p.text.data firstTok.data)⟩)

/-- `search()` (app.py lines 92-131) over abstract query executors: `ftsExec`
runs the primary full-text-index query (it may fail), `likeExec` runs the
fallback substring query (it may fail, e.g. on malformed storage); a
`.error` result is an exception reaching the caller. -/
def search (ftsExec : String → Except Unit (List SearchHit))
    (likeExec : String → String → Except Unit (List SearchHit))
    (qraw : String) : Except Unit (List SearchHit) :=
  let q := pyStrip qraw
  if q = "" then .ok []
  else
    let fts_q := buildFtsQuery q
    let rows : List SearchHit :=
      if fts_q ≠ "" then
        match ftsExec fts_q with
        | .ok r => r
        | .error _ => []
      else []
    if rows = [] then
      match pySplitWs q with
      | [] => .error ()
      | t :: _ => likeExec t ("%" ++ joinSep "%" (pySplitWs q) ++ "%")
    else .ok rows

/-- The fallback executor backed by a concrete page store. -/
def likeExecDB (pages : List PageRow) : String → String → Except Unit (List SearchHit) :=
  fun firstTok pattern => .ok (likeQuery pages firstTok pattern)

/-! ## Theorems -/

/-- C10: `classify` never reads its `page_count` argument, and `reclassify`
never reads its `text` (original text) or `page_count` arguments: calls that
differ only in those arguments return identical results. -/
theorem classify_reclassify_ignore_unused_args :
    (∀ (t : Option String) (p1 p2 : Nat), classify t p1 = classify t p2) ∧
    (∀ (o1 o2 c : Option String) (d : String) (p1 p2 : Nat),
        reclassify o1 c d p1 = reclassify o2 c d p2) :=
  ⟨fun _ _ _ => rfl, fun _ _ _ _ _ _ => rfl⟩

/-- Skipping an extraction failure is a no-op on the store. -/
theorem ingestStep_error (db : List DocRec) (f : String) :
    ingestStep db (f, Except.error ()) = db := by
  unfold ingestStep
  split
  · rfl
  · rfl

/-- C9: ingestion is idempotent per filename and failure-isolated: an item
whose filename already exists is a no-op (documents and pages untouched),
and a batch containing a failing extraction produces the same store as the
batch with that item removed — the remaining items are still ingested. -/
theorem ingest_idempotent_and_isolated :
    (∀ (db : List DocRec) (item : String × Except Unit (List String)),
        db.any (fun d => d.filename == item.1) = true → ingestStep db item = db) ∧
    (∀ (db : List DocRec) (xs ys : List (String × Except Unit (List String)))
        (f : String),
        ingestBatch db (xs ++ (f, Except.error ()) :: ys) = ingestBatch db (xs ++ ys)) := by
  constructor
  · intro db item h
    unfold ingestStep
    rw [if_pos h]
  · intro db xs ys f
    unfold ingestBatch
    rw [List.foldl_append, List.foldl_append, List.foldl_cons, ingestStep_error]

/-- Witness for C9 at concrete inputs: re-ingesting `a.pdf` is a no-op, and
a batch with a failing item in the middle equals the batch without it. -/
theorem ingest_idempotent_and_isolated_witness :
    ingestStep [mkDocRec "a.pdf" ["x"]] ("a.pdf", Except.ok ["y"]) =
        [mkDocRec "a.pdf" ["x"]] ∧
    ingestBatch [] [("a.pdf", Except.ok ["x"]), ("bad.pdf", Except.error ()),
        ("b.pdf", Except.ok ["y"])] =
      ingestBatch [] [("a.pdf", Except.ok ["x"]), ("b.pdf", Except.ok ["y"])] :=
  ⟨ingest_idempotent_and_isolated.1 [mkDocRec "a.pdf" ["x"]] ("a.pdf", Except.ok ["y"])
      (by decide),
   ingest_idempotent_and_isolated.2 [] [("a.pdf", Except.ok ["x"])]
      [("b.pdf", Except.ok ["y"])] "bad.pdf"⟩

/-- The single page used by the search counterexamples. -/
def cx1Pages : List PageRow :=
  [⟨1, "f1.pdf", 1, "what??? is this then"⟩]

/-- C1 counterexample: for the query `"???"` every whitespace token strips to
the empty string, yet `search` does not return an empty result — the
substring fallback runs (with pattern `"%???%"`) and returns the page
containing `"???"` literally. -/
theorem search_punct_query_counterexample :
    ((pySplitWs (pyStrip "???")).all (fun t => stripNonWord t == "")) = true ∧
    search (fun _ => Except.ok []) (likeExecDB cx1Pages) "???" =
      Except.ok [⟨1, "f1.pdf", 1, "what??? is this then"⟩] :=
  ⟨by decide, rfl⟩

/-- C1 amended: when the stripped query is nonempty but no token survives
non-word stripping (`_build_fts_query` returns the empty string), the primary
index query is never issued — the result does not depend on the index
executor — and `search` returns exactly the substring fallback's result for
the raw tokens. -/
theorem search_no_tokens_runs_fallback
    (fts1 fts2 : String → Except Unit (List SearchHit))
    (likeExec : String → String → Except Unit (List SearchHit)) (q : String)
    (h1 : pyStrip q ≠ "") (h2 : buildFtsQuery (pyStrip q) = "") :
    search fts1 likeExec q = search fts2 likeExec q ∧
    search fts1 likeExec q =
      (match pySplitWs (pyStrip q) with
       | [] => Except.error ()
       | t :: _ => likeExec t ("%" ++ joinSep "%" (pySplitWs (pyStrip q)) ++ "%")) := by
  unfold search
  rw [if_neg h1, if_neg h1, h2]
  simp

/-- Witness for C1 amended at the query `"???"`. -/
theorem search_no_tokens_runs_fallback_witness :
    search (fun _ => Except.ok [⟨7, "g.pdf", 7, "x"⟩]) (likeExecDB cx1Pages) "???" =
        search (fun _ => Except.error ()) (likeExecDB cx1Pages) "???" ∧
    search (fun _ => Except.ok [⟨7, "g.pdf", 7, "x"⟩]) (likeExecDB cx1Pages) "???" =
      (match pySplitWs (pyStrip "???") with
       | [] => Except.error ()
       | t :: _ => likeExecDB cx1Pages t
           ("%" ++ joinSep "%" (pySplitWs (pyStrip "???")) ++ "%")) :=
  search_no_tokens_runs_fallback (fun _ => Except.ok [⟨7, "g.pdf", 7, "x"⟩])
    (fun _ => Except.error ()) (likeExecDB cx1Pages) "???" (by decide) (by decide)

/-- C8 counterexample: when the primary index query errors and the fallback
query also errors, `search` propagates the error to the caller instead of
returning an empty result — the fallback is not wrapped in an exception
handler in the source. -/
theorem search_fallback_error_counterexample :
    search (fun _ => Except.error ()) (fun _ _ => Except.error ()) "hello" =
        Except.error () ∧
    (Except.error () : Except Unit (List SearchHit)) ≠ Except.ok [] :=
  ⟨rfl, by simp⟩

/-- C8 amended: whenever the stripped query is nonempty and the primary
index query either raises or returns zero rows, `search` silently runs the
substring fallback and returns exactly its result — including propagating
the fallback's own error when the fallback fails too. -/
theorem search_primary_failure_falls_back
    (ftsExec : String → Except Unit (List SearchHit))
    (likeExec : String → String → Except Unit (List SearchHit)) (q : String)
    (h1 : pyStrip q ≠ "")
    (h2 : ftsExec (buildFtsQuery (pyStrip q)) = Except.error () ∨
          ftsExec (buildFtsQuery (pyStrip q)) = Except.ok []) :
    search ftsExec likeExec q =
      (match pySplitWs (pyStrip q) with
       | [] => Except.error ()
       | t :: _ => likeExec t ("%" ++ joinSep "%" (pySplitWs (pyStrip q)) ++ "%")) := by
  unfold search
  rw [if_neg h1]
  rcases h2 with h2 | h2 <;> simp [h2]

/-- Witness for C8 amended: a failing index executor at the query `"hello"`
with a failing fallback executor propagates the error. -/
theorem search_primary_failure_falls_back_witness :
    search (fun _ => Except.error ()) (fun _ _ => Except.error ()) "hello" =
      (match pySplitWs (pyStrip "hello") with
       | [] => Except.error ()
       | t :: _ => (fun _ _ => Except.error ()) t
           ("%" ++ joinSep "%" (pySplitWs (pyStrip "hello")) ++ "%")) :=
  search_primary_failure_falls_back (fun _ => Except.error ())
    (fun _ _ => Except.error ()) "hello" (by decide) (Or.inl rfl)

/-- Inserting below all page numbers is a cons. -/
theorem insertByNum_of_le (x : Nat × String) (l : List (Nat × String))
    (h : ∀ y ∈ l, x.1 ≤ y.1) : insertByNum x l = x :: l := by
  cases l with
  | nil => rfl
  | cons y ys =>
    unfold insertByNum
    rw [if_pos (h y (List.mem_cons_self y ys))]

/-- Sorting a page list already sorted by page number is the identity. -/
theorem sortPagesByNum_of_pairwise (l : List (Nat × String))
    (h : l.Pairwise (fun a b => a.1 ≤ b.1)) : sortPagesByNum l = l := by
  induction l with
  | nil => rfl
  | cons x xs ih =>
    rw [List.pairwise_cons] at h
    unfold sortPagesByNum
    rw [ih h.2, insertByNum_of_le x xs h.1]

/-- Every entry of `enumFrom i l` has index at least `i`. -/
theorem fst_le_of_mem_enumFrom {α : Type} (l : List α) :
    ∀ (i : Nat) (y : Nat × α), y ∈ List.enumFrom i l → i ≤ y.1 := by
  induction l with
  | nil => intro i y h; cases h
  | cons a t ih =>
    intro i y h
    rcases List.mem_cons.1 h with h | h
    · rw [h]
    · exact Nat.le_of_succ_le (ih (i + 1) y h)

/-- `enumFrom` indices are strictly increasing. -/
theorem enumFrom_pairwise_lt {α : Type} (l : List α) :
    ∀ i : Nat, (List.enumFrom i l).Pairwise (fun a b => a.1 < b.1) := by
  induction l with
  | nil => intro i; exact List.Pairwise.nil
  | cons a t ih =>
    intro i
    refine List.Pairwise.cons ?_ (ih (i + 1))
    intro y hy
    exact Nat.lt_of_succ_le (fst_le_of_mem_enumFrom t (i + 1) y hy)

/-- The page rows built at ingestion are sorted by page number. -/
theorem mkDocRec_pages_pairwise (pts : List String) :
    (pts.enum.map (fun p => (p.1 + 1, p.2))).Pairwise
      (fun a b : Nat × String => a.1 ≤ b.1) := by
  rw [List.pairwise_map]
  refine List.Pairwise.imp ?_ (enumFrom_pairwise_lt pts 0)
  intro a b h
  exact Nat.succ_le_succ (Nat.le_of_lt h)

/-- Retrieving a freshly ingested document's pages in page-number order
returns the extracted page texts in extraction order. -/
theorem pagesInOrder_mkDocRec (f : String) (pts : List String) :
    pagesInOrder (mkDocRec f pts) = pts := by
  unfold pagesInOrder mkDocRec
  rw [sortPagesByNum_of_pairwise _ (mkDocRec_pages_pairwise pts)]
  rw [List.map_map]
  have : (Prod.snd ∘ fun p : Nat × String => (p.1 + 1, p.2)) = Prod.snd := rfl
  rw [this, List.enum_map_snd]

/-- C3 counterexample: for a two-page document ingested with pages `"a"` and
`"b"`, no single separator makes `full_text` the separator-join of the pages
both immediately after ingestion and after the Cleaner pass — ingestion
joins with `"\n"` (ingest.py line 78) while the Cleaner rejoins with `"\n\n"`
(clean.py line 56). -/
theorem full_text_one_separator_counterexample :
    ¬ ∃ sep : String,
      (mkDocRec "f.pdf" ["a", "b"]).full_text =
          joinSep sep (pagesInOrder (mkDocRec "f.pdf" ["a", "b"])) ∧
      (cleanDoc (mkDocRec "f.pdf" ["a", "b"])).full_text =
          joinSep sep (pagesInOrder (cleanDoc (mkDocRec "f.pdf" ["a", "b"]))) := by
  rintro ⟨sep, h1, h2⟩
  have e1 : pagesInOrder (mkDocRec "f.pdf" ["a", "b"]) = ["a", "b"] := by decide
  have e2 : pagesInOrder (cleanDoc (mkDocRec "f.pdf" ["a", "b"])) = ["a", "b"] := by decide
  have e3 : (mkDocRec "f.pdf" ["a", "b"]).full_text = "a\nb" := by decide
  have e4 : (cleanDoc (mkDocRec "f.pdf" ["a", "b"])).full_text = "a\n\nb" := by decide
  rw [e1, e3] at h1
  rw [e2, e4] at h2
  have : ("a\nb" : String) = "a\n\nb" := h1.trans h2.symm
  exact absurd this (by decide)

/-- C3 amended: the invariant holds per stage but with a stage-dependent
separator: immediately after ingestion `full_text` is the `"\n"`-join of the
pages in page-number order, and after the Cleaner pass `full_text` is the
`"\n\n"`-join of the (cleaned) pages in page-number order — so the
post-Cleaner round-trip reproduces `full_text` exactly. -/
theorem full_text_invariants :
    (∀ (f : String) (pts : List String),
        (mkDocRec f pts).full_text = joinSep "\n" (pagesInOrder (mkDocRec f pts))) ∧
    (∀ (db : List DocRec) (d : DocRec), d ∈ cleanMain db →
        d.full_text = joinSep "\n\n" (pagesInOrder d)) := by
  constructor
  · intro f pts
    rw [pagesInOrder_mkDocRec]
    rfl
  · intro db d hd
    rcases List.mem_map.1 hd with ⟨d0, _, rfl⟩
    rfl

/-- Witness for C3 amended on a concrete two-page document. -/
theorem full_text_invariants_witness :
    (mkDocRec "f.pdf" ["a", "b"]).full_text =
        joinSep "\n" (pagesInOrder (mkDocRec "f.pdf" ["a", "b"])) ∧
    (cleanDoc (mkDocRec "f.pdf" ["a", "b"])).full_text =
        joinSep "\n\n" (pagesInOrder (cleanDoc (mkDocRec "f.pdf" ["a", "b"]))) :=
  ⟨full_text_invariants.1 "f.pdf" ["a", "b"],
   full_text_invariants.2 [mkDocRec "f.pdf" ["a", "b"]] _ (by simp [cleanMain])⟩

/-- Step invariant: the email step keeps the type in the enumeration and the
score nonnegative. -/
theorem stepEmail_inv (lower : List Char) (st : String × Int)
    (h1 : st.1 ∈ docTypeEnum) (h2 : 0 ≤ st.2) :
    (stepEmail lower st).1 ∈ docTypeEnum ∧ 0 ≤ (stepEmail lower st).2 := by
  unfold stepEmail
  split
  · exact ⟨by simp [docTypeEnum], by norm_num⟩
  · exact ⟨h1, h2⟩

/-- Step invariant for the deposition step. -/
theorem stepDepo_inv (lower : List Char) (st : String × Int)
    (h1 : st.1 ∈ docTypeEnum) (h2 : 0 ≤ st.2) :
    (stepDepo lower st).1 ∈ docTypeEnum ∧ 0 ≤ (stepDepo lower st).2 := by
  unfold stepDepo
  split
  · refine ⟨?_, ?_⟩
    · split
      · simp [docTypeEnum]
      · exact h1
    · simp only
      omega
  · exact ⟨h1, h2⟩

/-- Step invariant for the law-enforcement step. -/
theorem stepLaw_inv (lower : List Char) (st : String × Int)
    (h1 : st.1 ∈ docTypeEnum) (h2 : 0 ≤ st.2) :
    (stepLaw lower st).1 ∈ docTypeEnum ∧ 0 ≤ (stepLaw lower st).2 := by
  unfold stepLaw
  split
  · exact ⟨by simp [docTypeEnum], by simp only; omega⟩
  · exact ⟨h1, h2⟩

/-- Step invariant for the legal-filing step. -/
theorem stepLegal_inv (lower : List Char) (st : String × Int)
    (h1 : st.1 ∈ docTypeEnum) (h2 : 0 ≤ st.2) :
    (stepLegal lower st).1 ∈ docTypeEnum ∧ 0 ≤ (stepLegal lower st).2 := by
  unfold stepLegal
  split
  · refine ⟨?_, ?_⟩
    · split
      · simp [docTypeEnum]
      · exact h1
    · simp only
      omega
  · exact ⟨h1, h2⟩

/-- Step invariant for the phone-records step. -/
theorem stepPhone_inv (lower : List Char) (st : String × Int)
    (h1 : st.1 ∈ docTypeEnum) (h2 : 0 ≤ st.2) :
    (stepPhone lower st).1 ∈ docTypeEnum ∧ 0 ≤ (stepPhone lower st).2 := by
  unfold stepPhone
  split
  · exact ⟨by simp [docTypeEnum], by norm_num⟩
  · exact ⟨h1, h2⟩

/-- Step invariant for the file-listing step. -/
theorem stepFile_inv (lower : List Char) (st : String × Int)
    (h1 : st.1 ∈ docTypeEnum) (h2 : 0 ≤ st.2) :
    (stepFile lower st).1 ∈ docTypeEnum ∧ 0 ≤ (stepFile lower st).2 := by
  unfold stepFile
  split
  · exact ⟨by simp [docTypeEnum], by norm_num⟩
  · exact ⟨h1, h2⟩

/-- Step invariant for the evidence-list step. -/
theorem stepEvidence_inv (lower : List Char) (st : String × Int)
    (h1 : st.1 ∈ docTypeEnum) (h2 : 0 ≤ st.2) :
    (stepEvidence lower st).1 ∈ docTypeEnum ∧ 0 ≤ (stepEvidence lower st).2 := by
  unfold stepEvidence
  split
  · exact ⟨by simp [docTypeEnum], by norm_num⟩
  · exact ⟨h1, h2⟩

/-- Step invariant for the name boost. -/
theorem stepNames_inv (lower : List Char) (st : String × Int)
    (h1 : st.1 ∈ docTypeEnum) (h2 : 0 ≤ st.2) :
    (stepNames lower st).1 ∈ docTypeEnum ∧ 0 ≤ (stepNames lower st).2 := by
  refine ⟨h1, ?_⟩
  unfold stepNames
  simp only
  positivity

/-- Step invariant for the first length bonus. -/
theorem stepLen1_inv (cc : Nat) (st : String × Int)
    (h1 : st.1 ∈ docTypeEnum) (h2 : 0 ≤ st.2) :
    (stepLen1 cc st).1 ∈ docTypeEnum ∧ 0 ≤ (stepLen1 cc st).2 := by
  unfold stepLen1
  split
  · exact ⟨h1, by simp only; omega⟩
  · exact ⟨h1, h2⟩

/-- Step invariant for the second length bonus. -/
theorem stepLen2_inv (cc : Nat) (st : String × Int)
    (h1 : st.1 ∈ docTypeEnum) (h2 : 0 ≤ st.2) :
    (stepLen2 cc st).1 ∈ docTypeEnum ∧ 0 ≤ (stepLen2 cc st).2 := by
  unfold stepLen2
  split
  · exact ⟨h1, by simp only; omega⟩
  · exact ⟨h1, h2⟩

/-- The clamp bounds the score into [0,100]. -/
theorem stepClamp_inv (st : String × Int)
    (h1 : st.1 ∈ docTypeEnum) (h2 : 0 ≤ st.2) :
    (stepClamp st).1 ∈ docTypeEnum ∧ 0 ≤ (stepClamp st).2 ∧ (stepClamp st).2 ≤ 100 := by
  refine ⟨h1, ?_, ?_⟩ <;> simp only [stepClamp] <;> omega

/-- The final step keeps the type in the enumeration and the score as it is. -/
theorem stepFinal_inv (cc : Nat) (st : String × Int)
    (h1 : st.1 ∈ docTypeEnum) (h2 : 0 ≤ st.2) (h3 : st.2 ≤ 100) :
    (stepFinal cc st).1 ∈ docTypeEnum ∧ 0 ≤ (stepFinal cc st).2 ∧
      (stepFinal cc st).2 ≤ 100 := by
  unfold stepFinal
  split
  · split
    · exact ⟨by simp [docTypeEnum], h2, h3⟩
    · exact ⟨by simp [docTypeEnum], h2, h3⟩
  · exact ⟨h1, h2, h3⟩

/-- `classify` totality: the type lands in the closed enumeration and the
score in [0,100], for every input. -/
theorem classify_total (t : Option String) (p : Nat) :
    (classify t p).1 ∈ docTypeEnum ∧ 0 ≤ (classify t p).2 ∧ (classify t p).2 ≤ 100 := by
  unfold classify
  simp only
  split
  · exact ⟨by decide, by norm_num, by norm_num⟩
  split
  · exact ⟨by decide, by norm_num, by norm_num⟩
  have h1 := stepEmail_inv ((strippedOf t).map pyLower) ("other", (0 : Int))
    (by decide) (by norm_num)
  have h2 := stepDepo_inv ((strippedOf t).map pyLower) _ h1.1 h1.2
  have h3 := stepLaw_inv ((strippedOf t).map pyLower) _ h2.1 h2.2
  have h4 := stepLegal_inv ((strippedOf t).map pyLower) _ h3.1 h3.2
  have h5 := stepPhone_inv ((strippedOf t).map pyLower) _ h4.1 h4.2
  have h6 := stepFile_inv ((strippedOf t).map pyLower) _ h5.1 h5.2
  have h7 := stepEvidence_inv ((strippedOf t).map pyLower) _ h6.1 h6.2
  have h8 := stepNames_inv ((strippedOf t).map pyLower) _ h7.1 h7.2
  have h9 := stepLen1_inv (strippedOf t).length _ h8.1 h8.2
  have h10 := stepLen2_inv (strippedOf t).length _ h9.1 h9.2
  have h11 := stepClamp_inv _ h10.1 h10.2
  exact stepFinal_inv (strippedOf t).length _ h11.1 h11.2.1 h11.2.2

/-- Step invariant for the reclassifier dialogue step: the type is either
passed through or forced to a value of the enumeration, and the score stays
nonnegative. -/
theorem rstepQA_inv (c : List Char) (st : String × Int) (h : 0 ≤ st.2) :
    ((rstepQA c st).1 = st.1 ∨ (rstepQA c st).1 ∈ docTypeEnum) ∧
      0 ≤ (rstepQA c st).2 := by
  unfold rstepQA
  split
  · exact ⟨Or.inr (by simp [docTypeEnum]), by simp only; omega⟩
  · exact ⟨Or.inl rfl, h⟩

/-- Step invariant for the narrative-density step. -/
theorem rstepSent_inv (c : List Char) (st : String × Int) (h : 0 ≤ st.2) :
    ((rstepSent c st).1 = st.1 ∨ (rstepSent c st).1 ∈ docTypeEnum) ∧
      0 ≤ (rstepSent c st).2 := by
  unfold rstepSent
  split
  · exact ⟨Or.inl rfl, by simp only; omega⟩
  split
  · exact ⟨Or.inl rfl, by simp only; omega⟩
  · exact ⟨Or.inl rfl, h⟩

/-- Step invariant for the investigative-language step. -/
theorem rstepInv_inv (lower : List Char) (st : String × Int) (h : 0 ≤ st.2) :
    ((rstepInv lower st).1 = st.1 ∨ (rstepInv lower st).1 ∈ docTypeEnum) ∧
      0 ≤ (rstepInv lower st).2 := by
  unfold rstepInv
  split
  · refine ⟨?_, by simp only; omega⟩
    simp only
    split
    · exact Or.inr (by simp [docTypeEnum])
    · exact Or.inl rfl
  · exact ⟨Or.inl rfl, h⟩

/-- Step invariant for the legal-substance step. -/
theorem rstepLegal_inv (lower : List Char) (st : String × Int) (h : 0 ≤ st.2) :
    ((rstepLegal lower st).1 = st.1 ∨ (rstepLegal lower st).1 ∈ docTypeEnum) ∧
      0 ≤ (rstepLegal lower st).2 := by
  unfold rstepLegal
  split
  · exact ⟨Or.inl rfl, by simp only; omega⟩
  · exact ⟨Or.inl rfl, h⟩

/-- Step invariant for the email-content step. -/
theorem rstepEmail_inv (c : List Char) (st : String × Int) (h : 0 ≤ st.2) :
    ((rstepEmail c st).1 = st.1 ∨ (rstepEmail c st).1 ∈ docTypeEnum) ∧
      0 ≤ (rstepEmail c st).2 := by
  unfold rstepEmail
  split
  · exact ⟨Or.inr (by simp [docTypeEnum]), by simp only; omega⟩
  · exact ⟨Or.inl rfl, h⟩

/-- Step invariant for the tabular-demotion step. -/
theorem rstepTabular_inv (c : List Char) (st : String × Int) (h : 0 ≤ st.2) :
    ((rstepTabular c st).1 = st.1 ∨ (rstepTabular c st).1 ∈ docTypeEnum) ∧
      0 ≤ (rstepTabular c st).2 := by
  unfold rstepTabular
  split
  · exact ⟨Or.inl rfl, by simp only; omega⟩
  · exact ⟨Or.inl rfl, h⟩

/-- Step invariant for the length bonuses. -/
theorem rstepLen_inv (c : List Char) (st : String × Int) (h : 0 ≤ st.2) :
    ((rstepLen c st).1 = st.1 ∨ (rstepLen c st).1 ∈ docTypeEnum) ∧
      0 ≤ (rstepLen c st).2 := by
  unfold rstepLen rstepLenB rstepLenA
  split <;> split <;>
    exact ⟨Or.inl rfl, by (try simp only); omega⟩

/-- The name boost of the reclassifier is nonnegative. -/
theorem rstepNames_nonneg (lower : List Char) (s : Int) (h : 0 ≤ s) :
    0 ≤ rstepNames lower s := by
  unfold rstepNames
  split
  · positivity
  · exact h

/-- `reclassify` totality: the score lands in [0,100] and the type is either
the prior type passed through or a value of the enumeration. -/
theorem reclassify_total (o c : Option String) (d : String) (p : Nat) :
    0 ≤ (reclassify o c d p).2 ∧ (reclassify o c d p).2 ≤ 100 ∧
      ((reclassify o c d p).1 = d ∨ (reclassify o c d p).1 ∈ docTypeEnum) := by
  unfold reclassify
  cases c with
  | none =>
    refine ⟨by norm_num, by norm_num, Or.inr ?_⟩
    show ("empty" : String) ∈ docTypeEnum
    decide
  | some cs =>
    simp only
    split
    · refine ⟨by norm_num, by norm_num, Or.inr ?_⟩
      show ("empty" : String) ∈ docTypeEnum
      decide
    have h0 : (0 : Int) ≤ ((d, rstepNames (cs.data.map pyLower) 0) : String × Int).2 :=
      rstepNames_nonneg (cs.data.map pyLower) 0 (le_refl 0)
    have h1 := rstepQA_inv cs.data _ h0
    have h2 := rstepSent_inv cs.data _ h1.2
    have h3 := rstepInv_inv (cs.data.map pyLower) _ h2.2
    have h4 := rstepLegal_inv (cs.data.map pyLower) _ h3.2
    have h5 := rstepEmail_inv cs.data _ h4.2
    have h6 := rstepTabular_inv cs.data _ h5.2
    have h7 := rstepLen_inv cs.data _ h6.2
    refine ⟨?_, ?_, ?_⟩
    · simp only
      omega
    · simp only
      omega
    · simp only
      rcases h7.1 with h | h
      · rw [h]
        rcases h6.1 with h | h
        · rw [h]
          rcases h5.1 with h | h
          · rw [h]
            rcases h4.1 with h | h
            · rw [h]
              rcases h3.1 with h | h
              · rw [h]
                rcases h2.1 with h | h
                · rw [h]
                  rcases h1.1 with h | h
                  · rw [h]
                    exact Or.inl rfl
                  · exact Or.inr h
                · exact Or.inr h
              · exact Or.inr h
            · exact Or.inr h
          · exact Or.inr h
        · exact Or.inr h
      · exact Or.inr h

/-- C2 counterexample: `reclassify` passes an arbitrary prior `docType`
through unchanged when no branch overrides it, so for a priorDocType outside
the enumeration the returned docType is outside the enumeration. -/
theorem reclassify_foreign_type_counterexample :
    reclassify (some "")
        (some "hello there friend this is plain text about gardens and flowers today")
        "weird_type" 0 = ("weird_type", 0) ∧
      "weird_type" ∉ docTypeEnum :=
  ⟨by decide, by decide⟩

/-- C2 amended: `classify` always returns a docType of the closed
enumeration and a score in [0,100]; `reclassify` always returns a score in
[0,100], and its docType is in the enumeration provided the prior docType
is (otherwise the prior value can be passed through). -/
theorem classify_reclassify_totality :
    (∀ (t : Option String) (p : Nat),
        (classify t p).1 ∈ docTypeEnum ∧ 0 ≤ (classify t p).2 ∧
          (classify t p).2 ≤ 100) ∧
    (∀ (o c : Option String) (d : String) (p : Nat),
        (0 ≤ (reclassify o c d p).2 ∧ (reclassify o c d p).2 ≤ 100) ∧
        (d ∈ docTypeEnum → (reclassify o c d p).1 ∈ docTypeEnum)) := by
  refine ⟨classify_total, ?_⟩
  intro o c d p
  obtain ⟨h1, h2, h3⟩ := reclassify_total o c d p
  refine ⟨⟨h1, h2⟩, fun hd => ?_⟩
  rcases h3 with h | h
  · rw [h]
    exact hd
  · exact h

/-- Witness for C2 amended at concrete inputs. -/
theorem classify_reclassify_totality_witness :
    ((classify (some "the witness was present in the room today") 1).1 ∈ docTypeEnum ∧
      0 ≤ (classify (some "the witness was present in the room today") 1).2 ∧
      (classify (some "the witness was present in the room today") 1).2 ≤ 100) ∧
    ((0 ≤ (reclassify (some "") (some "Q. Did you go. A. Yes here.") "other" 0).2 ∧
      (reclassify (some "") (some "Q. Did you go. A. Yes here.") "other" 0).2 ≤ 100) ∧
      (reclassify (some "") (some "Q. Did you go. A. Yes here.") "other" 0).1 ∈
        docTypeEnum) :=
  ⟨classify_reclassify_totality.1 (some "the witness was present in the room today") 1,
   (classify_reclassify_totality.2 (some "") (some "Q. Did you go. A. Yes here.")
      "other" 0).1,
   (classify_reclassify_totality.2 (some "") (some "Q. Did you go. A. Yes here.")
      "other" 0).2 (by decide)⟩

/-- The evidence step overwrites the whole state when its marker fires. -/
theorem stepEvidence_forces (lower : List Char) (st : String × Int)
    (h : evidenceMatch lower = true) : stepEvidence lower st = ("evidence_list", 30) := by
  unfold stepEvidence
  rw [h]
  simp

/-- The name boost does not change the type. -/
theorem stepNames_fst (lower : List Char) (st : String × Int) :
    (stepNames lower st).1 = st.1 := rfl

/-- The first length bonus does not change the type. -/
theorem stepLen1_fst (cc : Nat) (st : String × Int) : (stepLen1 cc st).1 = st.1 := by
  unfold stepLen1
  split <;> rfl

/-- The second length bonus does not change the type. -/
theorem stepLen2_fst (cc : Nat) (st : String × Int) : (stepLen2 cc st).1 = st.1 := by
  unfold stepLen2
  split <;> rfl

/-- The clamp does not change the type. -/
theorem stepClamp_fst (st : String × Int) : (stepClamp st).1 = st.1 := rfl

/-- The final step is the identity when the type is no longer `other`. -/
theorem stepFinal_of_ne (cc : Nat) (st : String × Int) (h : st.1 ≠ "other") :
    stepFinal cc st = st := by
  unfold stepFinal
  rw [if_neg]
  intro hc
  exact h hc.1

/-- C4 amended: for every text past the empty/garbage gates whose lowercased
form matches an evidence/property marker, the evidence step unconditionally
assigns type `evidence_list` and score 30 — discarding any higher score
accumulated earlier — after which only the name boost, length bonuses and
the clamp apply. -/
theorem classify_evidence_assigns_thirty (t : Option String) (p : Nat)
    (h1 : ¬ (strippedOf t).length < 20)
    (h2 : ¬ ((strippedOf t).filter Char.isAlpha).length * 10 < (strippedOf t).length * 3)
    (h3 : evidenceMatch (lowerOf t) = true) :
    classify t p =
      ("evidence_list",
        min ((30 : Int) + (classifyNameHits (lowerOf t) : Int) * 10
            + (if (strippedOf t).length > 1000 then (10 : Int) else 0)
            + (if (strippedOf t).length > 5000 then (10 : Int) else 0)) 100) := by
  have h3' : evidenceMatch ((strippedOf t).map pyLower) = true := h3
  simp only [lowerOf]
  unfold classify
  simp only
  rw [if_neg h1, if_neg h2, stepEvidence_forces ((strippedOf t).map pyLower) _ h3']
  rw [stepFinal_of_ne _ _
    (by rw [stepClamp_fst, stepLen2_fst, stepLen1_fst, stepNames_fst]; decide)]
  unfold stepClamp stepLen2 stepLen1 stepNames
  split_ifs <;> simp only [Prod.mk.injEq, true_and] <;> omega

/-- C4 counterexample: a text carrying a law-enforcement marker (score 80)
and an evidence marker ends with score 30, not `max(80, 30)` — the evidence
step is a plain assignment in the source (classify.py line 58). -/
theorem evidence_step_lowers_score_counterexample :
    lawMatch (lowerOf (some "fbi agents reviewed the evidence in the case")) = true ∧
    evidenceMatch (lowerOf (some "fbi agents reviewed the evidence in the case")) = true ∧
    classify (some "fbi agents reviewed the evidence in the case") 1 =
      ("evidence_list", 30) :=
  ⟨by decide, by decide, by decide⟩

/-- Witness for C4 amended at a concrete input. -/
theorem classify_evidence_assigns_thirty_witness :
    classify (some "fbi agents reviewed the evidence in the case") 1 =
      ("evidence_list",
        min ((30 : Int)
            + (classifyNameHits
                (lowerOf (some "fbi agents reviewed the evidence in the case")) : Int) * 10
            + (if (strippedOf (some "fbi agents reviewed the evidence in the case")).length
                  > 1000 then (10 : Int) else 0)
            + (if (strippedOf (some "fbi agents reviewed the evidence in the case")).length
                  > 5000 then (10 : Int) else 0)) 100) :=
  classify_evidence_assigns_thirty (some "fbi agents reviewed the evidence in the case") 1
    (by decide) (by decide) (by decide)

/-- `Char.ofNat` of a valid code point keeps the code point. -/
theorem toNat_ofNat_valid (n : Nat) (h : n.isValidChar) : (Char.ofNat n).toNat = n := by
  unfold Char.ofNat
  rw [dif_pos h]
  rfl

/-- `pyLower` never produces an upper-case ASCII letter. -/
theorem pyLower_not_upper (c : Char) : isUpperAZ (pyLower c) = false := by
  unfold pyLower
  split
  case isTrue h =>
    have h1 : 65 ≤ c.toNat := Char.le_def.1 h.1
    have h2 : c.toNat ≤ 90 := Char.le_def.1 h.2
    have hv : (c.toNat + 32).isValidChar := Or.inl (by omega)
    have ht := toNat_ofNat_valid (c.toNat + 32) hv
    have hz : ¬ (Char.ofNat (c.toNat + 32) ≤ 'Z') := by
      intro hle
      have hle' : (Char.ofNat (c.toNat + 32)).toNat ≤ ('Z').toNat := hle
      rw [ht] at hle'
      have h90 : ('Z').toNat = 90 := rfl
      omega
    simp [isUpperAZ, hz]
  case isFalse h =>
    by_cases h1 : 'A' ≤ c
    · have h2 : ¬ (c ≤ 'Z') := fun hz => h ⟨h1, hz⟩
      simp [isUpperAZ, h2]
    · simp [isUpperAZ, h1]

/-- Every character of a lowercased text is non-upper. -/
theorem map_pyLower_no_upper (l : List Char) :
    ∀ c ∈ l.map pyLower, isUpperAZ c = false := by
  intro c hc
  rcases List.mem_map.1 hc with ⟨x, _, rfl⟩
  exact pyLower_not_upper x

/-- On a text with no upper-case ASCII letter, the boundary scanner for a
needle starting with an upper-case letter never matches. -/
theorem containsWBAux_upper_head_false (c0 : Char) (nr : List Char)
    (hc0 : isUpperAZ c0 = true) (m : List Char)
    (hall : ∀ c ∈ m, isUpperAZ c = false) :
    ∀ prev, containsWBAux (c0 :: nr) prev m = false := by
  induction m with
  | nil => intro prev; rfl
  | cons x xs ih =>
    intro prev
    have hx : isUpperAZ x = false := hall x (List.mem_cons_self _ _)
    have hne : c0 ≠ x := by
      intro he
      rw [he, hx] at hc0
      exact Bool.noConfusion hc0
    unfold containsWBAux
    rw [ih (fun c hc => hall c (List.mem_cons_of_mem _ hc)) (isWordChar x)]
    simp [List.isPrefixOf, hne]

/-- On a text with no upper-case ASCII letter, the `Q\.\s|A\.\s` scanner
never matches. -/
theorem qaDotFoundAux_false (m : List Char)
    (hall : ∀ c ∈ m, isUpperAZ c = false) :
    ∀ prev, qaDotFoundAux prev m = false := by
  induction m with
  | nil => intro prev; rfl
  | cons x xs ih =>
    intro prev
    have hx : isUpperAZ x = false := hall x (List.mem_cons_self _ _)
    have hQ : x ≠ 'Q' := by
      intro he
      rw [he] at hx
      exact Bool.noConfusion hx
    have hA : x ≠ 'A' := by
      intro he
      rw [he] at hx
      exact Bool.noConfusion hx
    unfold qaDotFoundAux
    rw [ih (fun c hc => hall c (List.mem_cons_of_mem _ hc)) (isWordChar x)]
    simp [hQ, hA]

/-- C5 first part: on lowercased text the `Q\.\s`, `A\.\s` and `WITNESS`
alternatives of the deposition regex are dead — only `deposition`,
`testimony`, `grand jury` and `sworn` can fire. -/
theorem depoMatch_live_alternatives (l : List Char) :
    depoMatch (l.map pyLower) =
      (containsWB "deposition".data (l.map pyLower)
        || containsWB "testimony".data (l.map pyLower)
        || containsWB "grand jury".data (l.map pyLower)
        || containsWB "sworn".data (l.map pyLower)) := by
  unfold depoMatch qaDotFound
  have hW : "WITNESS".data = 'W' :: "ITNESS".data := rfl
  unfold containsWB
  rw [qaDotFoundAux_false _ (map_pyLower_no_upper l) false, hW,
    containsWBAux_upper_head_false 'W' "ITNESS".data rfl _ (map_pyLower_no_upper l) false]
  simp

/-- The law step is the identity when its marker does not fire. -/
theorem stepLaw_of_false (lower : List Char) (st : String × Int)
    (h : lawMatch lower = false) : stepLaw lower st = st := by
  unfold stepLaw
  rw [h]
  simp

/-- The phone step is the identity when its marker does not fire. -/
theorem stepPhone_of_false (lower : List Char) (st : String × Int)
    (h : phoneMatch lower = false) : stepPhone lower st = st := by
  unfold stepPhone
  rw [h]
  simp

/-- The file-listing step is the identity when its condition does not fire. -/
theorem stepFile_of_false (lower : List Char) (st : String × Int)
    (h : fileListingCond lower = false) : stepFile lower st = st := by
  unfold stepFile
  rw [h]
  simp

/-- The evidence step is the identity when its marker does not fire. -/
theorem stepEvidence_of_false (lower : List Char) (st : String × Int)
    (h : evidenceMatch lower = false) : stepEvidence lower st = st := by
  unfold stepEvidence
  rw [h]
  simp

/-- Tail of `classify` before the clamp keeps a non-`other` type and a score
of at least 70. -/
theorem classify_tail_keeps (lower : List Char) (cc : Nat) (st : String × Int)
    (hne : st.1 ≠ "other") (h70 : 70 ≤ st.2) :
    (stepFinal cc (stepClamp (stepLen2 cc (stepLen1 cc (stepNames lower st))))).1 =
        st.1 ∧
    70 ≤ (stepFinal cc (stepClamp (stepLen2 cc (stepLen1 cc (stepNames lower st))))).2 := by
  rw [stepFinal_of_ne _ _
    (by rw [stepClamp_fst, stepLen2_fst, stepLen1_fst, stepNames_fst]; exact hne)]
  constructor
  · rw [stepClamp_fst, stepLen2_fst, stepLen1_fst, stepNames_fst]
  · unfold stepClamp stepLen2 stepLen1 stepNames
    split_ifs <;> (try simp only) <;> omega

/-- Head of `classify` through the legal step, when the deposition marker
fires and the law-enforcement marker does not: the type is `email` if the
email-header matched, else `deposition`, and the score is at least 70. -/
theorem classify_head_depo (L : List Char) (hd : depoMatch L = true)
    (hl : lawMatch L = false) :
    (stepLegal L (stepLaw L (stepDepo L (stepEmail L ("other", 0))))).1 =
      (if emailHeaderMatch L then "email" else "deposition") ∧
    70 ≤ (stepLegal L (stepLaw L (stepDepo L (stepEmail L ("other", 0))))).2 := by
  rw [stepLaw_of_false _ _ hl]
  by_cases hem : emailHeaderMatch L = true
  · rw [show stepEmail L ("other", 0) = ("email", 60) from by simp [stepEmail, hem],
      show stepDepo L ("email", (60 : Int)) = ("email", max 60 70) from by
        simp [stepDepo, hd]]
    rw [if_pos hem]
    unfold stepLegal
    split
    · exact ⟨by simp, by simp only; omega⟩
    · exact ⟨rfl, by simp only; omega⟩
  · have hem' : emailHeaderMatch L = false := by
      revert hem
      cases emailHeaderMatch L <;> simp
    rw [show stepEmail L ("other", 0) = ("other", 0) from by simp [stepEmail, hem'],
      show stepDepo L ("other", (0 : Int)) = ("deposition", max 0 70) from by
        simp [stepDepo, hd]]
    rw [if_neg (by rw [hem']; exact Bool.noConfusion)]
    unfold stepLegal
    split
    · exact ⟨by simp, by simp only; omega⟩
    · exact ⟨rfl, by simp only; omega⟩

/-- C5 amended: in the deposition regex only the lowercase alternatives
(`deposition`, `testimony`, `grand jury`, `sworn`) can ever fire on the
lowercased text — `Q\.\s`, `A\.\s` and `WITNESS` are dead — and for every
text past the gates where the regex fires and no later overriding marker
(law-enforcement, phone, file-listing, evidence) fires, the final type is
`deposition` (`email` when the email-header matched first) with score at
least 70. -/
theorem classify_depo_markers :
    (∀ l : List Char, depoMatch (l.map pyLower) =
      (containsWB "deposition".data (l.map pyLower)
        || containsWB "testimony".data (l.map pyLower)
        || containsWB "grand jury".data (l.map pyLower)
        || containsWB "sworn".data (l.map pyLower))) ∧
    (∀ (t : Option String) (p : Nat),
      ¬ (strippedOf t).length < 20 →
      ¬ ((strippedOf t).filter Char.isAlpha).length * 10 < (strippedOf t).length * 3 →
      depoMatch (lowerOf t) = true →
      lawMatch (lowerOf t) = false →
      phoneMatch (lowerOf t) = false →
      fileListingCond (lowerOf t) = false →
      evidenceMatch (lowerOf t) = false →
      (classify t p).1 = (if emailHeaderMatch (lowerOf t) then "email" else "deposition") ∧
      70 ≤ (classify t p).2) := by
  refine ⟨depoMatch_live_alternatives, ?_⟩
  intro t p h1 h2 hd hl hp hf he
  simp only [lowerOf] at hd hl hp hf he ⊢
  unfold classify
  simp only
  rw [if_neg h1, if_neg h2, stepEvidence_of_false _ _ he, stepFile_of_false _ _ hf,
    stepPhone_of_false _ _ hp]
  have hhead := classify_head_depo ((strippedOf t).map pyLower) hd hl
  have htail := classify_tail_keeps ((strippedOf t).map pyLower) (strippedOf t).length
    (stepLegal ((strippedOf t).map pyLower) (stepLaw ((strippedOf t).map pyLower)
      (stepDepo ((strippedOf t).map pyLower)
        (stepEmail ((strippedOf t).map pyLower) ("other", 0)))))
    (by rw [hhead.1]; split <;> decide) hhead.2
  exact ⟨htail.1.trans hhead.1, htail.2⟩

/-- C5 counterexample: a text whose only deposition marker is the word
`witness` (or a `Q. `/`A. ` dialogue marker) is not classified `deposition`
— here it lands on `("minimal", 0)` because the `WITNESS` alternative is
case-sensitively dead against the lowercased text. -/
theorem witness_marker_dead_counterexample :
    containsL "witness".data
        (lowerOf (some "the witness was present in the room today")) = true ∧
    classify (some "the witness was present in the room today") 1 = ("minimal", 0) :=
  ⟨by decide, by decide⟩

/-- Witness for C5 amended at a concrete deposition text. -/
theorem classify_depo_markers_witness :
    (classify (some "the sworn testimony given by epstein and maxwell in the court") 1).1 =
      (if emailHeaderMatch
          (lowerOf (some "the sworn testimony given by epstein and maxwell in the court"))
        then "email" else "deposition") ∧
    70 ≤ (classify (some "the sworn testimony given by epstein and maxwell in the court") 1).2 :=
  classify_depo_markers.2
    (some "the sworn testimony given by epstein and maxwell in the court") 1
    (by decide) (by decide) (by decide) (by decide) (by decide) (by decide) (by decide)

/-- The dialogue step forces `deposition` and adds 30 when it fires. -/
theorem rstepQA_forces (c : List Char) (st : String × Int) (h : countQA c > 5) :
    rstepQA c st = ("deposition", st.2 + 30) := by
  unfold rstepQA
  rw [if_pos h]

/-- Closed form of the narrative-density step. -/
theorem rstepSent_eq (c : List Char) (st : String × Int) :
    rstepSent c st =
      (st.1, st.2 + (if countSent c > 5 then (20 : Int)
                     else if countSent c > 2 then 10 else 0)) := by
  unfold rstepSent
  split_ifs <;> simp

/-- Closed form of the investigative step on a `deposition` state. -/
theorem rstepInv_eq_depo (lower : List Char) (st : String × Int)
    (h : st.1 = "deposition") :
    rstepInv lower st = (st.1, st.2 + (if invMatch lower then (20 : Int) else 0)) := by
  unfold rstepInv
  split_ifs with h1 h2
  · exact absurd h h2.1
  · simp
  · simp

/-- Closed form of the legal-substance step. -/
theorem rstepLegal_eq (lower : List Char) (st : String × Int) :
    rstepLegal lower st =
      (st.1, st.2 + (if legalSubstanceMatch lower then (25 : Int) else 0)) := by
  unfold rstepLegal
  split_ifs <;> simp

/-- The email-content step is the identity when no `From:`/`Subject:` line
is present. -/
theorem rstepEmail_of_false (c : List Char) (st : String × Int)
    (h : emailLineMatch c = false) : rstepEmail c st = st := by
  unfold rstepEmail
  rw [if_neg]
  intro hc
  rw [h] at hc
  exact Bool.noConfusion hc.1

/-- The tabular-demotion step is the identity when its condition fails. -/
theorem rstepTabular_of_false (c : List Char) (st : String × Int)
    (h : ¬ ((splitNl c).length > 10 ∧
        shortLineCount (splitNl c) * 10 > (splitNl c).length * 7)) :
    rstepTabular c st = st := by
  unfold rstepTabular
  rw [if_neg h]

/-- The email-content step is the identity whenever its heuristic does not
fire — no `From:`/`Subject:` line together with more than two sentences or
length over 300. -/
theorem rstepEmail_of_not_fire (c : List Char) (st : String × Int)
    (h : ¬ (emailLineMatch c = true ∧ (countSent c > 2 ∨ c.length > 300))) :
    rstepEmail c st = st := by
  unfold rstepEmail
  rw [if_neg h]

/-- Closed form of the tabular-demotion step. -/
theorem rstepTabular_eq (c : List Char) (st : String × Int) :
    rstepTabular c st =
      (st.1, if (splitNl c).length > 10 ∧
                shortLineCount (splitNl c) * 10 > (splitNl c).length * 7
             then max (st.2 - 20) 0 else st.2) := by
  unfold rstepTabular
  split_ifs <;> simp

/-- Closed form of the length bonuses. -/
theorem rstepLen_eq (c : List Char) (st : String × Int) :
    rstepLen c st =
      (st.1, st.2 + (if c.length > 2000 then (10 : Int) else 0)
           + (if c.length > 5000 then (10 : Int) else 0)) := by
  unfold rstepLen rstepLenB rstepLenA
  split_ifs <;> simp

/-- C6 amended: when the condensed text passes the length gate and has more
than five `Q.`/`A.` dialogue markers, and the later email-content heuristic
(a `From:`/`Subject:` line together with more than two sentences or length
over 300, condense.py lines 105-108) does not fire, `reclassify` returns
type `deposition` — regardless of the prior type — and the score is exactly:
the other contributions plus the 30 from the dialogue step, demoted by 20
(floored at 0) when the text is mostly short tabular lines, plus the length
bonuses, clamped at 100. -/
theorem reclassify_qa_forces_deposition (o : Option String) (cs d : String) (p : Nat)
    (h1 : ¬ (pyStripL cs.data).length < 30)
    (hqa : countQA cs.data > 5)
    (hem : ¬ (emailLineMatch cs.data = true ∧
        (countSent cs.data > 2 ∨ cs.data.length > 300))) :
    reclassify o (some cs) d p =
      ("deposition",
        min ((if (splitNl cs.data).length > 10 ∧
                 shortLineCount (splitNl cs.data) * 10 > (splitNl cs.data).length * 7
              then max (rstepNames (cs.data.map pyLower) 0 + 30
                  + (if countSent cs.data > 5 then (20 : Int)
                     else if countSent cs.data > 2 then 10 else 0)
                  + (if invMatch (cs.data.map pyLower) then (20 : Int) else 0)
                  + (if legalSubstanceMatch (cs.data.map pyLower) then (25 : Int) else 0)
                  - 20) 0
              else rstepNames (cs.data.map pyLower) 0 + 30
                  + (if countSent cs.data > 5 then (20 : Int)
                     else if countSent cs.data > 2 then 10 else 0)
                  + (if invMatch (cs.data.map pyLower) then (20 : Int) else 0)
                  + (if legalSubstanceMatch (cs.data.map pyLower) then (25 : Int) else 0))
            + (if cs.data.length > 2000 then (10 : Int) else 0)
            + (if cs.data.length > 5000 then (10 : Int) else 0)) 100) := by
  unfold reclassify
  simp only
  rw [if_neg h1, rstepQA_forces _ _ hqa, rstepSent_eq,
    rstepInv_eq_depo _ _ rfl, rstepLegal_eq, rstepEmail_of_not_fire _ _ hem,
    rstepTabular_eq, rstepLen_eq]

/-- The concrete counterexample text for C6: six dialogue markers, a
`From:` line, and enough length to trip the email-content heuristic. -/
def qaEmailText : String :=
  "From: alice\nQ. w Q. w Q. w Q. w Q. w Q. w\n" ++ String.mk (List.replicate 300 'z')

set_option maxRecDepth 40000 in
/-- C6 counterexample: a condensed text with six `Q. ` markers is forced to
`deposition` at the dialogue step, but the later email-content heuristic
overrides the type to `email` — `reclassify` does not return `deposition`. -/
theorem reclassify_qa_email_override_counterexample :
    countQA qaEmailText.data > 5 ∧
    ¬ (pyStripL qaEmailText.data).length < 30 ∧
    reclassify (some "") (some qaEmailText) "other" 0 = ("email", 45) :=
  ⟨by decide, by decide, by decide⟩

/-- Witness for C6 amended at a concrete dialogue text. -/
theorem reclassify_qa_forces_deposition_witness :
    reclassify (some "") (some "Q. w Q. w Q. w Q. w Q. w Q. w and some words here")
        "other" 0 =
      ("deposition",
        min ((if (splitNl "Q. w Q. w Q. w Q. w Q. w Q. w and some words here".data).length > 10 ∧
                 shortLineCount (splitNl "Q. w Q. w Q. w Q. w Q. w Q. w and some words here".data)
                     * 10 >
                   (splitNl "Q. w Q. w Q. w Q. w Q. w Q. w and some words here".data).length * 7
              then max (rstepNames
                      ("Q. w Q. w Q. w Q. w Q. w Q. w and some words here".data.map pyLower) 0
                  + 30
                  + (if countSent "Q. w Q. w Q. w Q. w Q. w Q. w and some words here".data > 5
                     then (20 : Int)
                     else if countSent "Q. w Q. w Q. w Q. w Q. w Q. w and some words here".data > 2
                     then 10 else 0)
                  + (if invMatch
                        ("Q. w Q. w Q. w Q. w Q. w Q. w and some words here".data.map pyLower)
                     then (20 : Int) else 0)
                  + (if legalSubstanceMatch
                        ("Q. w Q. w Q. w Q. w Q. w Q. w and some words here".data.map pyLower)
                     then (25 : Int) else 0)
                  - 20) 0
              else rstepNames
                      ("Q. w Q. w Q. w Q. w Q. w Q. w and some words here".data.map pyLower) 0
                  + 30
                  + (if countSent "Q. w Q. w Q. w Q. w Q. w Q. w and some words here".data > 5
                     then (20 : Int)
                     else if countSent "Q. w Q. w Q. w Q. w Q. w Q. w and some words here".data > 2
                     then 10 else 0)
                  + (if invMatch
                        ("Q. w Q. w Q. w Q. w Q. w Q. w and some words here".data.map pyLower)
                     then (20 : Int) else 0)
                  + (if legalSubstanceMatch
                        ("Q. w Q. w Q. w Q. w Q. w Q. w and some words here".data.map pyLower)
                     then (25 : Int) else 0))
            + (if "Q. w Q. w Q. w Q. w Q. w Q. w and some words here".data.length > 2000
               then (10 : Int) else 0)
            + (if "Q. w Q. w Q. w Q. w Q. w Q. w and some words here".data.length > 5000
               then (10 : Int) else 0)) 100) :=
  reclassify_qa_forces_deposition (some "")
    "Q. w Q. w Q. w Q. w Q. w Q. w and some words here" "other" 0
    (by decide) (by decide) (by decide)

/-- `strip` never lengthens a text. -/
theorem pyStripL_length_le (l : List Char) : (pyStripL l).length ≤ l.length := by
  unfold pyStripL
  rw [List.length_reverse]
  calc ((l.dropWhile isPySpace).reverse.dropWhile isPySpace).length
      ≤ (l.dropWhile isPySpace).reverse.length := (List.dropWhile_sublist _).length_le
    _ = (l.dropWhile isPySpace).length := List.length_reverse _
    _ ≤ l.length := (List.dropWhile_sublist _).length_le

/-- A substitution with the empty replacement never lengthens a text. -/
theorem subReAux_length_le (re : Re) : ∀ (l : List Char) (skip : Nat),
    (subReAux re skip l).length ≤ l.length := by
  intro l
  induction l with
  | nil =>
    intro skip
    cases skip <;> simp [subReAux]
  | cons c t ih =>
    intro skip
    cases skip with
    | succ k =>
      calc (subReAux re (k + 1) (c :: t)).length = (subReAux re k t).length := rfl
        _ ≤ t.length := ih k
        _ ≤ (c :: t).length := by simp
    | zero =>
      show (subReAux re 0 (c :: t)).length ≤ (c :: t).length
      unfold subReAux
      cases hm : reMatchEnd re (c :: t) with
      | none =>
        simpa using ih 0
      | some r =>
        simp only
        split
        · calc (subReAux re ((c :: t).length - r.length - 1) t).length ≤ t.length :=
              ih _
            _ ≤ (c :: t).length := by simp
        · simpa using ih 0

/-- The leading newline run is no longer than the text. -/
theorem countLeadNl_le (l : List Char) : countLeadNl l ≤ l.length := by
  induction l with
  | nil => simp [countLeadNl]
  | cons c t ih =>
    unfold countLeadNl
    split
    · simp only [List.length_cons]
      omega
    · simp

/-- The newline collapse never lengthens a text (counting skipped input). -/
theorem collapseNlAux_length_le : ∀ (skip : Nat) (l : List Char),
    (collapseNlAux skip l).length ≤ l.length - skip := by
  intro skip l
  induction skip, l using collapseNlAux.induct with
  | case1 skip => cases skip <;> simp [collapseNlAux]
  | case2 skip c t ih =>
    calc (collapseNlAux (skip + 1) (c :: t)).length = (collapseNlAux skip t).length := rfl
      _ ≤ t.length - skip := ih
      _ ≤ (c :: t).length - (skip + 1) := by simp only [List.length_cons]; omega
  | case3 t n h2 ih =>
    have hnn : n = countLeadNl t := rfl
    rw [hnn] at h2 ih
    have heq : collapseNlAux 0 ('\n' :: t) =
        '\n' :: '\n' :: collapseNlAux (countLeadNl t) t := by
      rw [show collapseNlAux 0 ('\n' :: t) =
          (if 2 ≤ countLeadNl t then '\n' :: '\n' :: collapseNlAux (countLeadNl t) t
           else '\n' :: collapseNlAux 0 t) from rfl]
      rw [if_pos h2]
    rw [heq]
    have hn := countLeadNl_le t
    simp only [List.length_cons]
    omega
  | case4 t n h2 ih =>
    have hnn : n = countLeadNl t := rfl
    rw [hnn] at h2
    have heq : collapseNlAux 0 ('\n' :: t) = '\n' :: collapseNlAux 0 t := by
      rw [show collapseNlAux 0 ('\n' :: t) =
          (if 2 ≤ countLeadNl t then '\n' :: '\n' :: collapseNlAux (countLeadNl t) t
           else '\n' :: collapseNlAux 0 t) from rfl]
      rw [if_neg h2]
    rw [heq]
    simp only [List.length_cons]
    omega
  | case5 c t h ih =>
    have heq : collapseNlAux 0 (c :: t) = c :: collapseNlAux 0 t := by
      rw [collapseNlAux.eq_def]
      split <;> simp_all
    rw [heq]
    simp only [List.length_cons]
    omega

/-- Stripping the whole pattern library never lengthens a page. -/
theorem foldl_subRe_length_le : ∀ (pats : List Re) (l : List Char),
    (pats.foldl (fun acc re => subRe re acc) l).length ≤ l.length := by
  intro pats
  induction pats with
  | nil => intro l; simp
  | cons p ps ih =>
    intro l
    calc ((p :: ps).foldl (fun acc re => subRe re acc) l).length
        = (ps.foldl (fun acc re => subRe re acc) (subRe p l)).length := rfl
      _ ≤ (subRe p l).length := ih (subRe p l)
      _ ≤ l.length := subReAux_length_le p l 0

/-- One condenser page pass never lengthens the page. -/
theorem cleanPage_length_le (page : List Char) :
    (cleanPage page).length ≤ page.length := by
  unfold cleanPage
  calc (pyStripL (collapseNl (JUNK_PATTERNS.foldl (fun acc re => subRe re acc) page))).length
      ≤ (collapseNl (JUNK_PATTERNS.foldl (fun acc re => subRe re acc) page)).length :=
        pyStripL_length_le _
    _ ≤ (JUNK_PATTERNS.foldl (fun acc re => subRe re acc) page).length := by
        have := collapseNlAux_length_le 0 (JUNK_PATTERNS.foldl (fun acc re => subRe re acc) page)
        simpa [collapseNl] using this
    _ ≤ page.length := foldl_subRe_length_le _ _

/-- The page splitter never returns the empty list. -/
theorem splitNlNlAux_ne_nil (acc l : List Char) : splitNlNlAux acc l ≠ [] := by
  induction acc, l using splitNlNlAux.induct with
  | case1 acc t ih => simp [splitNlNlAux]
  | case2 acc c t h ih =>
    rw [splitNlNlAux.eq_2 acc c t h]
    exact ih
  | case3 acc => simp [splitNlNlAux]

/-- Joining the pages produced by the splitter restores the original text
after the accumulator prefix. -/
theorem joinNlNl_splitNlNlAux (acc l : List Char) :
    joinNlNl (splitNlNlAux acc l) = acc.reverse ++ l := by
  induction acc, l using splitNlNlAux.induct with
  | case1 acc t ih =>
    show joinNlNl (acc.reverse :: splitNlNlAux [] t) = acc.reverse ++ '\n' :: '\n' :: t
    rcases hsp : splitNlNlAux [] t with _ | ⟨x, xs⟩
    · exact absurd hsp (splitNlNlAux_ne_nil [] t)
    · rw [hsp] at ih
      show acc.reverse ++ '\n' :: '\n' :: joinNlNl (x :: xs) = acc.reverse ++ '\n' :: '\n' :: t
      rw [ih]
      simp
  | case2 acc c t h ih =>
    rw [splitNlNlAux.eq_2 acc c t h, ih]
    simp
  | case3 acc =>
    show joinNlNl [acc.reverse] = acc.reverse ++ []
    simp [joinNlNl]

/-- The tail join is no longer than the join with one more page. -/
theorem joinNlNl_le_cons (a : List Char) (t : List (List Char)) :
    (joinNlNl t).length ≤ (joinNlNl (a :: t)).length := by
  cases t with
  | nil => simp [joinNlNl]
  | cons y ys =>
    show (joinNlNl (y :: ys)).length ≤ (a ++ '\n' :: '\n' :: joinNlNl (y :: ys)).length
    simp only [List.length_append, List.length_cons]
    omega

/-- A page is no longer than the join of any list starting with it. -/
theorem le_joinNlNl_cons (a : List Char) (t : List (List Char)) :
    a.length ≤ (joinNlNl (a :: t)).length := by
  cases t with
  | nil => simp [joinNlNl]
  | cons y ys =>
    show a.length ≤ (a ++ '\n' :: '\n' :: joinNlNl (y :: ys)).length
    simp

/-- Keeping a shrinking selection of pages never lengthens the join. -/
theorem joinNlNl_filterMap_le (f : List Char → Option (List Char))
    (hf : ∀ a b, f a = some b → b.length ≤ a.length) :
    ∀ l : List (List Char), (joinNlNl (l.filterMap f)).length ≤ (joinNlNl l).length := by
  intro l
  induction l with
  | nil => simp [joinNlNl]
  | cons a t ih =>
    rw [List.filterMap_cons]
    cases hfa : f a with
    | none =>
      exact le_trans ih (joinNlNl_le_cons a t)
    | some b =>
      have hb := hf a b hfa
      show (joinNlNl (b :: t.filterMap f)).length ≤ (joinNlNl (a :: t)).length
      rcases hft : t.filterMap f with _ | ⟨x, xs⟩
      · calc (joinNlNl [b]).length = b.length := by simp [joinNlNl]
          _ ≤ a.length := hb
          _ ≤ (joinNlNl (a :: t)).length := le_joinNlNl_cons a t
      · rw [hft] at ih
        have ht : t ≠ [] := by
          intro he
          rw [he] at hft
          simp at hft
        rcases t with _ | ⟨y, ys⟩
        · exact absurd rfl ht
        show (joinNlNl (b :: x :: xs)).length ≤ (joinNlNl (a :: y :: ys)).length
        show (b ++ '\n' :: '\n' :: joinNlNl (x :: xs)).length ≤
          (a ++ '\n' :: '\n' :: joinNlNl (y :: ys)).length
        simp only [List.length_append, List.length_cons]
        have := ih
        simp only [List.length_cons] at this ⊢
        omega

set_option maxHeartbeats 400000 in
/-- The condenser never lengthens a text. -/
theorem condense_text_length_le (s : String) :
    (condense_text s).length ≤ s.length := by
  unfold condense_text
  split
  · simp
  have hinv : joinNlNl (splitNlNl s.data) = s.data := by
    have := joinNlNl_splitNlNlAux [] s.data
    simpa [splitNlNl] using this
  have hmain := joinNlNl_filterMap_le
    (fun page =>
      if is_junk_page page then none
      else
        if (cleanPage page).length > 15 then some (cleanPage page) else none)
    (by
      intro a b hab
      have hab2 : (if is_junk_page a then none
          else if (cleanPage a).length > 15 then some (cleanPage a) else none) =
            some b := hab
      by_cases h1 : is_junk_page a = true
      · rw [if_pos h1] at hab2
        exact absurd hab2 (by simp)
      · rw [if_neg h1] at hab2
        by_cases h2 : (cleanPage a).length > 15
        · rw [if_pos h2] at hab2
          rw [← Option.some.inj hab2]
          exact cleanPage_length_le a
        · rw [if_neg h2] at hab2
          exact absurd hab2 (by simp)
      )
    (splitNlNl s.data)
  rw [hinv] at hmain
  exact hmain

/-- C7 amended: applying `condense_text` to its own output never lengthens
the text (the monotone-shrink half of the claim holds). -/
theorem condense_twice_no_longer (t : String) :
    (condense_text (condense_text t)).length ≤ (condense_text t).length :=
  condense_text_length_le (condense_text t)

/-- First page of the C7 counterexample document: it carries an
image-file-listing run that the condenser strips. -/
def restripPage1 : String :=
  "this page is about the quiet garden walk\nAB1.x CD2.y EF3.z"

/-- The C7 counterexample document: the two later pages each end/start with
two image-listing items, which is below the `{3,}` threshold per page, but
the `"\n\n"` page join lets the pattern span the page boundary. -/
def restripDoc : String :=
  restripPage1 ++ "\n\n" ++ "gentle words fill the first half here GH4.p IJ5.q"
    ++ "\n\n" ++ "KL6.r MN7.s more gentle words close the page out"

set_option maxRecDepth 100000 in
set_option maxHeartbeats 2000000 in
/-- C7 counterexample: the image-listing pattern is stripped from the first
page of `restripDoc` during condensation, yet the same pattern still matches
inside `condense_text (condense_text restripDoc)` — a stripped boilerplate
pattern does match again in the double-condensed text. -/
theorem condense_restrip_counterexample :
    subRe junkPat18 restripPage1.data ≠ restripPage1.data ∧
    reSearch junkPat18 (condense_text (condense_text restripDoc)).data = true :=
  ⟨by decide, by decide⟩
